import Mathlib

/-!
Verification development for the Expozy AI orchestrator service.

This file gives a shallow embedding, in Lean 4, of the parts of the
service that the specification talks about:

* the template validator
  (`micro-service/api/orchestrator/ai/providers/ai_provider.py`),
* the worker job state machine
  (`micro-service/api/orchestrator/worker/service/worker_service.py` and
  `api/orchestrator/worker/persistance/worker_persistance.py`),
* the Telegram webhook ingest
  (`api/telegram/service/telegram_service.py` and
  `micro-service/api/telegram/persistence/telegram_persistence.py`),
* the preview bundle storage
  (`micro-service/api/orchestrator/preview/service/storage.py`).

Python regular expressions used by the validator are embedded with a
small matcher over the exact regex fragment the source uses (literals,
single-character classes, their closures, optional characters and word
boundaries).  Case-insensitive searches are modelled by lowercasing the
subject string, which agrees with Python's IGNORECASE for the ASCII
patterns appearing in the source.  JSON values are modelled by an
inductive tree; Python dicts become association lists in insertion
order (`dict.get` is lookup of the first binding).
-/

namespace Expozy

/-! ### Character classes (ASCII, as used by the source regexes) -/

def isWsChar (c : Char) : Bool :=
  c = ' ' || c = '\t' || c = '\n' || c = '\r' || c = '\x0b' || c = '\x0c'

def isLowerAlpha (c : Char) : Bool := 'a' ≤ c && c ≤ 'z'

def isUpperAlpha (c : Char) : Bool := 'A' ≤ c && c ≤ 'Z'

def isDigitChar (c : Char) : Bool := '0' ≤ c && c ≤ '9'

/-- `\w` in the source patterns: `[A-Za-z0-9_]`. -/
def isWordChar (c : Char) : Bool :=
  isLowerAlpha c || isUpperAlpha c || isDigitChar c || c = '_'

def isHexDigit (c : Char) : Bool :=
  isDigitChar c || ('a' ≤ c && c ≤ 'f') || ('A' ≤ c && c ≤ 'F')

def isQuoteChar (c : Char) : Bool := c = '\'' || c = '"'

/-! ### A matcher for the regex fragment used by the source

Every search pattern in the source is a sequence of: a literal
character, a single character from a class, a class closure (`*`), an
optional character (`?`) and a word boundary (`\b`).  `matchAtoms`
decides whether such a sequence matches a prefix of the input;
`searchFrom` decides Python's `re.search`. -/

inductive Atom where
  | one (f : Char → Bool)
  | many (f : Char → Bool)
  | opt (f : Char → Bool)
  | bdry
  deriving Inhabited

/-- Word/non-word boundary between a previous and a next character;
`none` stands for the edge of the string (a non-word position). -/
def atBoundary (a b : Option Char) : Bool :=
  (match a with | none => false | some c => isWordChar c)
    ≠ (match b with | none => false | some c => isWordChar c)

/-- Prefix match of an atom sequence, with explicit fuel so that the
recursion is structural (every recursive call shrinks the atom list or
the input, so `as.length + l.length + 1` fuel never runs out). -/
def matchAtomsF : Nat → List Atom → Option Char → List Char → Bool
  | 0, _, _, _ => false
  | _ + 1, [], _, _ => true
  | fuel + 1, .one f :: as, _, l =>
    match l with
    | [] => false
    | c :: r => f c && matchAtomsF fuel as (some c) r
  | fuel + 1, .opt f :: as, prev, l =>
    matchAtomsF fuel as prev l ||
      (match l with
       | [] => false
       | c :: r => f c && matchAtomsF fuel as (some c) r)
  | fuel + 1, .many f :: as, prev, l =>
    matchAtomsF fuel as prev l ||
      (match l with
       | [] => false
       | c :: r => f c && matchAtomsF fuel (.many f :: as) (some c) r)
  | fuel + 1, .bdry :: as, prev, l =>
    atBoundary prev l.head? && matchAtomsF fuel as prev l

def matchAtoms (as : List Atom) (prev : Option Char) (l : List Char) : Bool :=
  matchAtomsF (as.length + l.length + 1) as prev l

def searchFrom (as : List Atom) : Option Char → List Char → Bool
  | prev, [] => matchAtoms as prev []
  | prev, c :: r => matchAtoms as prev (c :: r) || searchFrom as (some c) r

/-- Python `pattern.search(s)` for an atom sequence. -/
def patSearch (as : List Atom) (s : String) : Bool :=
  searchFrom as none s.toList

/-- A literal (already-lowercased) string, one atom per character. -/
def litA (s : String) : List Atom :=
  s.toList.map (fun a => Atom.one (fun c => c = a))

def wsStar : List Atom := [Atom.many isWsChar]

def notQuote (c : Char) : Bool := !(isQuoteChar c)

/-! ### The validation patterns of `ai_provider.py`

Each entry mirrors one compiled pattern of the source, in source
order, with its description string.  All of these are searched with
IGNORECASE; the subject is lowercased before the search. -/

/-- `UNSAFE_PATTERNS` of the source. -/
def UNSAFE_PATTERNS : List (List Atom × String) :=
  [ ([Atom.one (· = '<')] ++ wsStar ++ litA "script" ++ [Atom.bdry], "script tag"),
    (litA "javascript" ++ wsStar ++ [Atom.one (· = ':')], "javascript: protocol"),
    ([Atom.bdry] ++ litA "on" ++ [Atom.one isWordChar, Atom.many isWordChar] ++ wsStar ++
      [Atom.one (· = '=')], "inline event handler (on*=)"),
    ([Atom.one (· = '<')] ++ wsStar ++ litA "iframe" ++ [Atom.bdry], "iframe tag"),
    ([Atom.one (· = '<')] ++ wsStar ++ litA "object" ++ [Atom.bdry], "object tag"),
    ([Atom.one (· = '<')] ++ wsStar ++ litA "embed" ++ [Atom.bdry], "embed tag"),
    ([Atom.one (· = '<')] ++ wsStar ++ litA "form" ++ [Atom.bdry, Atom.many (· ≠ '>')] ++
      litA "action" ++ wsStar ++ [Atom.one (· = '=')], "form with action"),
    ([Atom.one (· = '<')] ++ wsStar ++ litA "meta" ++ [Atom.bdry, Atom.many (· ≠ '>')] ++
      litA "http-equiv", "meta http-equiv"),
    ([Atom.one (· = '<')] ++ wsStar ++ litA "link" ++ [Atom.bdry, Atom.many (· ≠ '>')] ++
      litA "rel" ++ wsStar ++ [Atom.one (· = '=')] ++ wsStar ++ [Atom.opt isQuoteChar] ++
      litA "import", "link import"),
    ([Atom.one (· = '<')] ++ wsStar ++ litA "base" ++ [Atom.bdry], "base tag"),
    (litA "expression" ++ wsStar ++ [Atom.one (· = '(')], "CSS expression()"),
    (litA "url" ++ wsStar ++ [Atom.one (· = '(')] ++ wsStar ++ [Atom.opt isQuoteChar] ++
      wsStar ++ litA "data:", "data: URL"),
    (litA "@import" ++ [Atom.one isWsChar, Atom.many isWsChar], "CSS @import") ]

/-- `ALPINE_UNSAFE_PATTERNS` of the source. -/
def ALPINE_UNSAFE_PATTERNS : List (List Atom × String) :=
  [ (litA "x-html" ++ wsStar ++ [Atom.one (· = '=')],
      "x-html directive (allows raw HTML injection)"),
    (litA "x-on" ++ wsStar ++ [Atom.one (· = ':')] ++ wsStar ++
      [Atom.one isWordChar, Atom.many isWordChar] ++ wsStar ++ [Atom.one (· = '=')] ++
      wsStar ++ [Atom.one isQuoteChar, Atom.many notQuote, Atom.one (· = '(')],
      "x-on with function call"),
    ([Atom.one (· = '@'), Atom.one isWordChar, Atom.many isWordChar] ++ wsStar ++
      [Atom.one (· = '=')] ++ wsStar ++
      [Atom.one isQuoteChar, Atom.many notQuote, Atom.one (· = '(')],
      "@ shorthand with function call"),
    (litA "x-init" ++ wsStar ++ [Atom.one (· = '=')] ++ wsStar ++
      [Atom.one isQuoteChar, Atom.many notQuote] ++ litA "fetch" ++ wsStar ++
      [Atom.one (· = '(')], "x-init with fetch"),
    (litA "x-init" ++ wsStar ++ [Atom.one (· = '=')] ++ wsStar ++
      [Atom.one isQuoteChar, Atom.many notQuote] ++ litA "eval" ++ wsStar ++
      [Atom.one (· = '(')], "x-init with eval"),
    (litA "$refs" ++ wsStar ++ [Atom.one (· = '[')], "$refs bracket access"),
    (litA "$el" ++ wsStar ++ [Atom.one (· = '.')], "$el direct manipulation"),
    (litA "x-data" ++ wsStar ++ [Atom.one (· = '=')] ++ wsStar ++ [Atom.opt isQuoteChar] ++
      wsStar ++ [Atom.one (· = '\x7b')] ++ List.replicate 500 (Atom.one (· ≠ '\x7d')),
      "x-data with large object (>500 chars)") ]

/-- `TAILWIND_DANGEROUS_PATTERNS` of the source (`.` excludes newline). -/
def TAILWIND_DANGEROUS_PATTERNS : List (List Atom × String) :=
  [ ([Atom.one (· = '[')] ++ wsStar ++ [Atom.one isQuoteChar, Atom.many (· ≠ '\n'),
      Atom.one (· = '<')], "arbitrary content with HTML"),
    ([Atom.one (· = '[')] ++ wsStar ++ [Atom.one isQuoteChar, Atom.many (· ≠ '\n')] ++
      litA "javascript:", "arbitrary content with javascript:"),
    (litA "content-" ++ [Atom.one (· = '['), Atom.many (· ≠ ']'), Atom.one (· = '<')],
      "content-[] with HTML"),
    (litA "url" ++ [Atom.one (· = '('), Atom.many (· ≠ ')'), Atom.one (· = ')')],
      "url() in arbitrary value") ]

/-- `ROUTE_DANGEROUS` of the source. -/
def ROUTE_DANGEROUS : List (List Atom × String) :=
  [ ([Atom.one (· = '<')] ++ wsStar ++ litA "script", "script tag in route"),
    (litA "javascript:", "javascript: in route"),
    (litA "../", "directory traversal (..)"),
    ([Atom.one (fun c => c = '<' || c = '>' || c = '"' || c = '\'')], "special characters") ]

/-- ASCII lowercase of one character.  (Python `str.lower` also folds
non-ASCII letters; the source patterns are pure ASCII, so this only
diverges on the rare non-ASCII characters whose lowercase form is
ASCII.) -/
def asciiLowerChar (c : Char) : Char :=
  if 'A' ≤ c && c ≤ 'Z' then Char.ofNat (c.toNat + 32) else c

/-- Lowercasing a string before a case-insensitive search. -/
def strLower (s : String) : String :=
  ⟨s.toList.map asciiLowerChar⟩

/-- Python `str.startswith` (over code points). -/
def strStarts (s pre : String) : Bool :=
  pre.toList.isPrefixOf s.toList

/-- Substring test (Python `in`, and the alternation-of-literals search
of `DANGEROUS_ENDPOINTS`). -/
def strContainsSub (s pat : String) : Bool :=
  (List.range (s.toList.length + 1)).any fun i => pat.toList.isPrefixOf (s.toList.drop i)

/-- The alternatives of the `DANGEROUS_ENDPOINTS` pattern. -/
def dangerousEndpointWords : List String :=
  ["drop", "truncate", "delete.users", "delete.all", "admin", "exec", "eval", "system"]

/-- `DANGEROUS_ENDPOINTS.search(ep)`: case-insensitive substring search
for any alternative. -/
def dangerousSearch (ep : String) : Bool :=
  dangerousEndpointWords.any fun w => strContainsSub (strLower ep) w

/-! ### Anchored patterns (`pattern.match`, i.e. anchored at the start)

The source's anchored patterns all end in `$`; Python's `$` also
matches just before one final newline, hence `stripDollar`. -/

def stripDollar (l : List Char) : List Char :=
  if l.getLast? = some '\n' then l.dropLast else l

/-- `\.[a-z][a-z0-9_]*$` — shared tail of the API and Module forms. -/
def resTail : List Char → Bool
  | '.' :: c :: r =>
    isLowerAlpha c && r.all fun d => isLowerAlpha d || isDigitChar d || d = '_'
  | _ => false

/-- `API_PATTERN`: `(get|post|put|patch|delete)\.[a-z][a-z0-9_]*` anchored. -/
def apiMatch (s : String) : Bool :=
  let l := stripDollar s.toList
  ["get", "post", "put", "patch", "delete"].any fun v =>
    v.toList.isPrefixOf l && resTail (l.drop v.length)

/-- `MODULE_PATTERN`: `[A-Z][A-Za-z0-9_]*\.[a-z][a-z0-9_]*` anchored.
The head class cannot contain `.`, so the match is determined by the
longest word-character run after the first character. -/
def moduleMatch (s : String) : Bool :=
  match stripDollar s.toList with
  | c :: r => isUpperAlpha c && resTail (r.dropWhile isWordChar)
  | [] => false

/-- `HEX_COLOR_3` / `HEX_COLOR_6` / `HEX_COLOR_8`: `#` plus exactly `n`
hex digits, anchored. -/
def hexColorMatch (n : Nat) (s : String) : Bool :=
  match stripDollar s.toList with
  | '#' :: ds => ds.length = n && ds.all isHexDigit
  | _ => false

def isRouteChar (c : Char) : Bool :=
  isLowerAlpha c || isUpperAlpha c || isDigitChar c || c = '_' || c = '-' || c = '/' ||
    c = '\x7b' || c = '\x7d'

/-- `ROUTE_VALID`: a leading slash followed by characters from the
class letters, digits, underscore, hyphen, slash, braces; anchored. -/
def routeValidMatch (s : String) : Bool :=
  match stripDollar s.toList with
  | '/' :: r => r.all isRouteChar
  | _ => false

/-! ### JSON values

Templates are untyped JSON.  Python dicts become association lists in
insertion order; `dict.get` is lookup of the first binding.  Python
floats are not modelled (no claim mentions them).  Values that would
make the Python validator raise (iterating a number, hashing a list,
calling `.get` on a non-dict, regex-matching a non-string) are outside
the model; comments at the relevant definitions say how they are
dropped. -/

inductive JsonVal where
  | str (s : String)
  | num (n : Int)
  | bool (b : Bool)
  | null
  | arr (elems : List JsonVal)
  | obj (fields : List (String × JsonVal))
  deriving Inhabited

/-- Python truthiness of a JSON value. -/
def JsonVal.truthy : JsonVal → Bool
  | .str s => s != ""
  | .num n => n != 0
  | .bool b => b
  | .null => false
  | .arr xs => !xs.isEmpty
  | .obj fs => !fs.isEmpty

mutual

/-- Python `==` on JSON values.  (Python compares dicts without regard
to order; the model compares bindings in insertion order, which only
diverges on dict-valued ids — those are unhashable in Python and make
the source raise, so they are outside the model.) -/
def jsonBeq : JsonVal → JsonVal → Bool
  | .str a, .str b => a == b
  | .num a, .num b => a == b
  | .bool a, .bool b => a == b
  | .null, .null => true
  | .arr a, .arr b => jsonBeqList a b
  | .obj a, .obj b => jsonBeqFields a b
  | _, _ => false

def jsonBeqList : List JsonVal → List JsonVal → Bool
  | [], [] => true
  | x :: xs, y :: ys => jsonBeq x y && jsonBeqList xs ys
  | _, _ => false

def jsonBeqFields : List (String × JsonVal) → List (String × JsonVal) → Bool
  | [], [] => true
  | (k, v) :: xs, (l, w) :: ys => k == l && jsonBeq v w && jsonBeqFields xs ys
  | _, _ => false

end

/-- `d.get(k)` on a dict; `None` (here `none`) otherwise.  The source
only calls `.get` behind an `isinstance(..., dict)` guard or where the
model restricts to dicts. -/
def JsonVal.get (v : JsonVal) (k : String) : Option JsonVal :=
  match v with
  | .obj fs => (fs.find? (fun kv => kv.1 == k)).map (fun kv => kv.2)
  | _ => none

/-- `pkg.get(k) or []`, iterated.  A truthy non-list value would be
iterated element-wise in Python (keys of a dict, characters of a
string), and every such element fails the `isinstance(..., dict)`
guard that follows each such loop in the source, so the loop body
contributes nothing; numbers would raise.  All are modelled as `[]`. -/
def getElems (pkg : JsonVal) (k : String) : List JsonVal :=
  match pkg.get k with
  | some (.arr xs) => xs
  | _ => []

/-- `d.get(k, dflt)` for string fields.  A truthy non-string value
would be passed to `pattern.match` and raise in Python; modelled as
the default. -/
def getStrD (d : JsonVal) (k : String) (dflt : String) : String :=
  match d.get k with
  | some (.str s) => s
  | _ => dflt

/-- How Python's f-strings display the (hashable) values that can reach
an error message. -/
def jsonDisplay : JsonVal → String
  | .str s => s
  | .num n => toString n
  | .bool true => "True"
  | .bool false => "False"
  | .null => "None"
  | .arr _ => "[unhashable]"
  | .obj _ => "[unhashable]"

/-- `type(v).__name__`. -/
def pyTypeName : JsonVal → String
  | .str _ => "str"
  | .num _ => "int"
  | .bool _ => "bool"
  | .null => "NoneType"
  | .arr _ => "list"
  | .obj _ => "dict"

/-- `enumerate` a list and concatenate what each element contributes. -/
def collectIdx (f : Nat → JsonVal → List String) (elems : List JsonVal) : List String :=
  (elems.enum.map fun p => f p.1 p.2).flatten

/-! ### `TemplateValidator` of `ai_provider.py` -/

/-- `TemplateValidator.validate_endpoints`. -/
def validate_endpoints (pkg : JsonVal) : List String :=
  let check := fun (name : String) (elems : List JsonVal) =>
    collectIdx (fun i ds =>
      match ds with
      | .obj _ =>
        let ep := getStrD ds "endpoint" ""
        (if ep != "" && !(apiMatch ep || moduleMatch ep) then
          [name ++ "[" ++ toString i ++ "].endpoint '" ++ ep ++ "' invalid format"]
         else []) ++
        (if ep != "" && dangerousSearch ep then
          [name ++ "[" ++ toString i ++ "].endpoint '" ++ ep ++ "' matches dangerous pattern"]
         else [])
      | _ => []) elems
  check "dataSources" (getElems pkg "dataSources") ++ check "actions" (getElems pkg "actions")

/-- The set comprehension over truthy `id` fields used by
`validate_crossrefs` (membership is all that is used of the set). -/
def idsOf (elems : List JsonVal) : List JsonVal :=
  elems.filterMap fun d =>
    match d with
    | .obj _ =>
      match d.get "id" with
      | some v => if v.truthy then some v else none
      | none => none
    | _ => none

/-- `TemplateValidator.validate_crossrefs`. -/
def validate_crossrefs (pkg : JsonVal) : List String :=
  let dsIds := idsOf (getElems pkg "dataSources")
  let acIds := idsOf (getElems pkg "actions")
  collectIdx (fun i sec =>
    match sec with
    | .obj _ =>
      (match sec.get "dataSource" with
       | some ds =>
         if ds.truthy && !(dsIds.any (jsonBeq ds)) then
           ["sections[" ++ toString i ++ "].dataSource '" ++ jsonDisplay ds ++
             "' references unknown id"]
         else []
       | none => []) ++
      (match sec.get "actionRef" with
       | some ar =>
         if ar.truthy && !(acIds.any (jsonBeq ar)) then
           ["sections[" ++ toString i ++ "].actionRef '" ++ jsonDisplay ar ++
             "' references unknown id"]
         else []
       | none => []) ++
      collectIdx (fun j btn =>
        match btn with
        | .obj _ =>
          match btn.get "actionRef" with
          | some ar =>
            if ar.truthy && !(acIds.any (jsonBeq ar)) then
              ["sections[" ++ toString i ++ "].buttons[" ++ toString j ++ "].actionRef '" ++
                jsonDisplay ar ++ "' references unknown id"]
            else []
          | none => []
        | _ => []) (getElems sec "buttons")
    | _ => []) (getElems pkg "sections")

mutual

/-- The depth-first string scan shared by `find_unsafe_strings` and
`validate_alpine`: every string value is searched against each
pattern, dicts recurse key-wise, lists index-wise. -/
def scanStrings (pats : List (List Atom × String)) (fmt : String → String → String) :
    JsonVal → String → List String
  | .str s, path => (pats.filter fun p => patSearch p.1 (strLower s)).map fun p => fmt path p.2
  | .obj fs, path => scanFields pats fmt fs path
  | .arr xs, path => scanElems pats fmt xs 0 path
  | _, _ => []

def scanFields (pats : List (List Atom × String)) (fmt : String → String → String) :
    List (String × JsonVal) → String → List String
  | [], _ => []
  | (k, v) :: rest, path =>
    scanStrings pats fmt v (path ++ "." ++ k) ++ scanFields pats fmt rest path

def scanElems (pats : List (List Atom × String)) (fmt : String → String → String) :
    List JsonVal → Nat → String → List String
  | [], _, _ => []
  | v :: rest, i, path =>
    scanStrings pats fmt v (path ++ "[" ++ toString i ++ "]") ++
      scanElems pats fmt rest (i + 1) path

end

/-- `TemplateValidator.find_unsafe_strings` (at the default path `$`). -/
def find_unsafe_strings (pkg : JsonVal) : List String :=
  scanStrings UNSAFE_PATTERNS (fun path desc => path ++ ": contains " ++ desc) pkg "$"

/-- `TemplateValidator.validate_alpine`. -/
def validate_alpine (pkg : JsonVal) : List String :=
  scanStrings ALPINE_UNSAFE_PATTERNS
    (fun path desc => path ++ ": contains unsafe Alpine pattern - " ++ desc) pkg "$"

def MAX_CLASSNAME_LENGTH : Nat := 500

/-- `TemplateValidator.validate_tailwind`. -/
def validate_tailwind (pkg : JsonVal) : List String :=
  collectIdx (fun i sec =>
    match sec with
    | .obj _ =>
      match sec.get "className" with
      | some (.str cn) =>
        if cn == "" then []
        else
          let path := "sections[" ++ toString i ++ "].className"
          (if cn.length > MAX_CLASSNAME_LENGTH then
            [path ++ ": exceeds max length (" ++ toString cn.length ++ " > " ++
              toString MAX_CLASSNAME_LENGTH ++ ")"]
           else []) ++
          ((TAILWIND_DANGEROUS_PATTERNS.filter fun p => patSearch p.1 (strLower cn)).map
            fun p => path ++ ": contains dangerous pattern - " ++ p.2)
      | _ => []
    | _ => []) (getElems pkg "sections")

def cssNamedColors : List String :=
  ["black", "white", "red", "green", "blue", "yellow", "transparent"]

/-- `TemplateValidator.validate_theme`. -/
def validate_theme (pkg : JsonVal) : List String :=
  match pkg.get "theme" with
  | some theme =>
    match theme with
    | .obj fs =>
      if fs.isEmpty then []
      else
        let colorErrs :=
          match theme.get "primaryColor" with
          | some color =>
            if !color.truthy then []
            else
              match color with
              | .str s =>
                if hexColorMatch 3 s || hexColorMatch 6 s || hexColorMatch 8 s then []
                else if cssNamedColors.contains (strLower s) ||
                    strStarts s "rgb" || strStarts s "hsl" then []
                else ["theme.primaryColor '" ++ s ++ "' is not a valid hex color format"]
              | _ => ["theme.primaryColor: expected string, got " ++ pyTypeName color]
          | none => []
        let darkErrs :=
          match theme.get "darkMode" with
          | some .null => []
          | some (.bool _) => []
          | some v => ["theme.darkMode: expected boolean, got " ++ pyTypeName v]
          | none => []
        colorErrs ++ darkErrs
    | _ => []
  | none => []

/-- `metadata = pkg.get("metadata", \x7b\x7d)`.  A truthy non-dict
metadata would make `metadata.get` raise in Python; modelled as the
empty dict. -/
def getMetadata (pkg : JsonVal) : JsonVal :=
  match pkg.get "metadata" with
  | some (JsonVal.obj fs) => JsonVal.obj fs
  | _ => JsonVal.obj []

/-- `TemplateValidator.validate_route`. -/
def validate_route (pkg : JsonVal) : List String :=
  match (getMetadata pkg).get "route" with
  | none => []
  | some route =>
    if !route.truthy then []
    else
      match route with
      | .str r =>
        ((ROUTE_DANGEROUS.filter fun p => patSearch p.1 (strLower r)).map
          fun p => "metadata.route '" ++ r ++ "' contains " ++ p.2) ++
        (if routeValidMatch r then []
         else if strContainsSub r "?" then
           ["metadata.route '" ++ r ++ "' contains query string - handle separately"]
         else if !(strStarts r "/") then
           ["metadata.route '" ++ r ++ "' must start with '/'"]
         else [])
      | _ => ["metadata.route: expected string, got " ++ pyTypeName route]

/-- The two fields of `PAGE_TYPE_REQUIREMENTS` that
`validate_page_type` reads: `recommended_sections` and
`required_form_fields`.  (The table's other entries are never read by
the validator and are omitted.) -/
def pageTypeReqs (pt : String) : Option (List String × List String) :=
  if pt == "product" then some (["products", "content"], [])
  else if pt == "category" then some (["products"], [])
  else if pt == "blog" then some (["posts", "content"], [])
  else if pt == "cart" then some (["content", "cta"], [])
  else if pt == "account" then some (["form", "content"], [])
  else if pt == "contact" then some (["form", "content"], ["name", "email", "message"])
  else if pt == "landing" then some (["hero", "features", "cta"], [])
  else none

/-- `TemplateValidator.validate_page_type`.  A non-string `pageType` is
never a key of the table (lists and dicts would be unhashable and
raise; excluded from the model). -/
def validate_page_type (pkg : JsonVal) : List String :=
  match (getMetadata pkg).get "pageType" with
  | none => []
  | some pt =>
    if !pt.truthy then []
    else
      match pt with
      | .str pts =>
        match pageTypeReqs pts with
        | none => []
        | some (recSections, reqFields) =>
          let sectionTypes : List JsonVal :=
            (getElems pkg "sections").filterMap fun sec =>
              match sec with
              | .obj _ => some ((sec.get "type").getD (.str ""))
              | _ => none
          let formFields : List JsonVal :=
            ((getElems pkg "sections").map fun sec =>
              match sec with
              | .obj _ =>
                (getElems sec "fields").filterMap fun fld =>
                  match fld with
                  | .obj _ => some ((fld.get "name").getD (.str ""))
                  | _ => none
              | _ => []).flatten
          ((recSections.filter fun st => !(sectionTypes.any (jsonBeq (.str st)))).map
            fun st => "pageType '" ++ pts ++ "' typically includes section type '" ++ st ++ "'") ++
          ((reqFields.filter fun fn => !(formFields.any (jsonBeq (.str fn)))).map
            fun fn => "pageType '" ++ pts ++ "' typically requires form field '" ++ fn ++ "'")
      | _ => []

/-- `TemplateValidator.validate_completeness`.  The emptiness test is
on the raw `pkg.get("sections", [])` value; iterating a truthy
non-list yields no dict elements (numbers would raise; excluded). -/
def validate_completeness (pkg : JsonVal) : List String :=
  let sectionsVal := (pkg.get "sections").getD (.arr [])
  if !sectionsVal.truthy then ["sections array is empty - page has no content"]
  else
    let secs := match sectionsVal with | .arr xs => xs | _ => []
    collectIdx (fun i sec =>
      match sec with
      | .obj _ =>
        if jsonBeq ((sec.get "type").getD .null) (.str "form") then
          (if !(((sec.get "fields").getD (.arr [])).truthy) then
            ["sections[" ++ toString i ++ "]: form section has no fields defined"]
           else []) ++
          (if !(((sec.get "actionRef").getD .null).truthy) then
            ["sections[" ++ toString i ++ "]: form section has no actionRef - form won't submit"]
           else [])
        else []
      | _ => []) secs ++
    collectIdx (fun i sec =>
      match sec with
      | .obj _ =>
        let st := (sec.get "type").getD .null
        if (jsonBeq st (.str "products") || jsonBeq st (.str "posts")) &&
            !(((sec.get "dataSource").getD .null).truthy) then
          ["sections[" ++ toString i ++ "]: '" ++ jsonDisplay st ++ "' section has no dataSource"]
        else []
      | _ => []) secs

/-- `ValidationResult` of `ai_provider.py`. -/
structure ValidationResult where
  valid : Bool := true
  endpoint_errors : List String := []
  crossref_errors : List String := []
  security_flags : List String := []
  alpine_errors : List String := []
  tailwind_errors : List String := []
  theme_errors : List String := []
  route_errors : List String := []
  page_type_warnings : List String := []
  completeness_warnings : List String := []
  deriving DecidableEq

/-- `ValidationResult.has_errors`. -/
def ValidationResult.has_errors (r : ValidationResult) : Bool :=
  !r.endpoint_errors.isEmpty || !r.crossref_errors.isEmpty || !r.security_flags.isEmpty ||
    !r.alpine_errors.isEmpty || !r.tailwind_errors.isEmpty || !r.theme_errors.isEmpty ||
    !r.route_errors.isEmpty

/-- `ValidationResult.has_warnings`. -/
def ValidationResult.has_warnings (r : ValidationResult) : Bool :=
  !r.page_type_warnings.isEmpty || !r.completeness_warnings.isEmpty

/-- `ValidationResult.all_errors`. -/
def ValidationResult.all_errors (r : ValidationResult) : List String :=
  r.endpoint_errors ++ r.crossref_errors ++ r.security_flags ++ r.alpine_errors ++
    r.tailwind_errors ++ r.theme_errors ++ r.route_errors

/-- `TemplateValidator.validate`. -/
def validate (pkg : JsonVal) : ValidationResult :=
  let r : ValidationResult :=
    { endpoint_errors := validate_endpoints pkg
      crossref_errors := validate_crossrefs pkg
      security_flags := find_unsafe_strings pkg
      alpine_errors := validate_alpine pkg
      tailwind_errors := validate_tailwind pkg
      theme_errors := validate_theme pkg
      route_errors := validate_route pkg
      page_type_warnings := validate_page_type pkg
      completeness_warnings := validate_completeness pkg }
  { r with valid := !r.has_errors }

/-! ### The job Store

`JobStatus` / `AttemptOutcome` mirror `db/models/enums.py`; the rows
mirror the columns of `job.py` / `job_attempt.py` that the worker
reads or writes (timestamps become a logical clock, UUIDs become
naturals).  `update_job_status`, `create_job_attempt` and
`finish_job_attempt` are `worker_persistance.py`; each is one
committed transaction, modelled as a pure state transformer. -/

inductive JobStatus where
  | queued
  | running
  | completed
  | failed
  deriving DecidableEq, Inhabited

inductive AttemptOutcome where
  | success
  | fail
  deriving DecidableEq, Inhabited

/-- The value stored into `job.raw_ai_response`: either the
`{"error": ..., "raw": ...}` dict of a failed attempt or the template
of a successful one (the template itself is opaque to the Store and is
modelled by its serialized text). -/
inductive RawResp where
  | errRaw (error : Option String) (raw : Option String)
  | tmpl (t : String)
  deriving DecidableEq, Inhabited

structure JobRow where
  id : Nat
  chatId : Int
  promptText : String
  status : JobStatus
  attemptCount : Nat
  errorMessage : Option String := none
  bundleId : Option Nat := none
  previewUrl : Option String := none
  rawAiResponse : Option RawResp := none
  validationErrors : Option (List String) := none
  updatedAt : Nat := 0
  deriving DecidableEq

structure AttemptRow where
  id : Nat
  jobId : Nat
  attemptNo : Nat
  providerName : String
  outcome : Option AttemptOutcome := none
  errorDetail : Option String := none
  providerStatusCode : Option Nat := none
  finished : Bool := false
  deriving DecidableEq

structure WorkerStore where
  jobs : List JobRow
  attempts : List AttemptRow
  nextAttemptId : Nat := 1
  clock : Nat := 0
  deriving DecidableEq

/-- `fetch_job`: select by primary key (ids are unique, so the first
match is the row). -/
def fetch_job (st : WorkerStore) (jobId : Nat) : Option JobRow :=
  st.jobs.find? fun j => j.id == jobId

/-- `update_job_status` of `worker_persistance.py`.  The UPDATE filters
on `Job.id` only — there is no predicate on the current status, so the
write applies whatever state the job is in.  A `none` keyword argument
leaves the column unchanged (the source only adds keys to `values` for
non-None arguments). -/
def update_job_status (st : WorkerStore) (jobId : Nat) (status : JobStatus)
    (bundleId : Option Nat) (previewUrl : Option String) (errorMessage : Option String)
    (rawAiResponse : Option RawResp) (validationErrors : Option (List String))
    (incrementAttempts : Bool) : WorkerStore :=
  let newClock := st.clock + 1
  let applyRow := fun (j : JobRow) =>
    { j with
      status := status
      updatedAt := newClock
      bundleId := if bundleId.isSome then bundleId else j.bundleId
      previewUrl := if previewUrl.isSome then previewUrl else j.previewUrl
      errorMessage := if errorMessage.isSome then errorMessage else j.errorMessage
      rawAiResponse := if rawAiResponse.isSome then rawAiResponse else j.rawAiResponse
      validationErrors := if validationErrors.isSome then validationErrors else j.validationErrors
      attemptCount := if incrementAttempts then j.attemptCount + 1 else j.attemptCount }
  { st with
    clock := newClock
    jobs := st.jobs.map fun j => if j.id == jobId then applyRow j else j }

/-- `create_job_attempt`: inserts an attempt row (outcome NULL while
running) in its own transaction and returns the fresh id. -/
def create_job_attempt (st : WorkerStore) (jobId : Nat) (attemptNo : Nat)
    (providerName : String) : Nat × WorkerStore :=
  let attemptId := st.nextAttemptId
  (attemptId,
    { st with
      nextAttemptId := attemptId + 1
      attempts := st.attempts ++
        [{ id := attemptId, jobId := jobId, attemptNo := attemptNo,
           providerName := providerName }] })

/-- `finish_job_attempt`: seals the attempt; a missing attempt id is a
silent no-op.  `error_detail` and `provider_status_code` are assigned
unconditionally (also when `None`). -/
def finish_job_attempt (st : WorkerStore) (attemptId : Nat) (outcome : AttemptOutcome)
    (errorDetail : Option String) (providerStatusCode : Option Nat) : WorkerStore :=
  match st.attempts.find? (fun a => a.id == attemptId) with
  | none => st
  | some _ =>
    { st with
      attempts := st.attempts.map fun a =>
        if a.id == attemptId then
          { a with finished := true, outcome := some outcome,
                   errorDetail := errorDetail, providerStatusCode := providerStatusCode }
        else a }

/-! ### The Worker (`worker_service.py`) -/

/-- The fields of `GenerationResult` that `process_job` reads.  The
template is opaque at this level (its serialized text). -/
structure GenResult where
  success : Bool
  template : Option String := none
  rawResponse : Option String := none
  error : Option String := none
  retryable : Bool := false
  validationErrors : Option (List String) := none
  deriving DecidableEq

/-- What the sanitize → render → `create_bundle` pipeline of the
success branch does: returns a fresh bundle id or raises.
(`notify_job_completed` cannot raise: `TelegramClient.send_message`
catches every exception and returns `None`.) -/
inductive PipelineOutcome where
  | bundle (bundleId : Nat)
  | raised (msg : String)
  deriving DecidableEq

/-- The externally-determined inputs of one `process_job` call: the
provider's `GenerationResult` and the outcome of the render/storage
pipeline. -/
structure PipelineEnv where
  genResult : GenResult
  pipeline : PipelineOutcome
  deriving DecidableEq

/-- The `Settings` fields the worker reads (delays are exact rationals;
the Python floats compute the same values for the magnitudes involved). -/
structure WorkerConfig where
  ai_provider : String
  max_retries : Nat
  retry_base_delay : ℚ
  retry_max_delay : ℚ
  preview_base_url : String := ""
  deriving DecidableEq

/-- The pydantic `Field` bounds of `shared/config.py`:
`max_retries ∈ [1,10]`, `retry_base_delay ∈ [1,60]`,
`retry_max_delay ∈ [60,600]`. -/
def settingsValid (cfg : WorkerConfig) : Prop :=
  1 ≤ cfg.max_retries ∧ cfg.max_retries ≤ 10 ∧
    1 ≤ cfg.retry_base_delay ∧ cfg.retry_base_delay ≤ 60 ∧
    60 ≤ cfg.retry_max_delay ∧ cfg.retry_max_delay ≤ 600

/-- The defaults of `shared/config.py`. -/
def defaultSettings : WorkerConfig :=
  { ai_provider := "mock", max_retries := 3, retry_base_delay := 5, retry_max_delay := 300 }

/-- `429 if "rate" in (result.error or "").lower() else None`. -/
def rateStatusCode (e : Option String) : Option Nat :=
  match e with
  | some s => if strContainsSub (strLower s) "rate" then some 429 else none
  | none => none

/-- `process_job` of `worker_service.py`.  Returns
`(finished?, store)`: `true` when done (success or permanent failure),
`false` when the caller should schedule a retry. -/
def process_job (env : PipelineEnv) (cfg : WorkerConfig) (jobId : Nat) (attempt : Nat)
    (st : WorkerStore) : Bool × WorkerStore :=
  match fetch_job st jobId with
  | none => (true, st)
  | some job =>
    if job.status = .completed || job.status = .failed then (true, st)
    else
      let st := update_job_status st jobId .running none none none none none true
      let p := create_job_attempt st jobId attempt cfg.ai_provider
      let attemptId := p.1
      let st := p.2
      let res := env.genResult
      -- the `except Exception` handler at the bottom of `process_job`
      let onExc := fun (st : WorkerStore) (e : String) =>
        let st := finish_job_attempt st attemptId .fail (some e) none
        if attempt < cfg.max_retries then
          (false, update_job_status st jobId .queued none none (some e) none none false)
        else
          (true, update_job_status st jobId .failed none none (some e) none none false)
      if res.success = false then
        if res.retryable && attempt < cfg.max_retries then
          let st := finish_job_attempt st attemptId .fail res.error (rateStatusCode res.error)
          let st := update_job_status st jobId .queued none none res.error
            (some (.errRaw res.error res.rawResponse)) none false
          (false, st)
        else
          let st := finish_job_attempt st attemptId .fail res.error none
          let st := update_job_status st jobId .failed none none res.error
            (some (.errRaw res.error res.rawResponse)) res.validationErrors false
          (true, st)
      else
        match res.template with
        | none => onExc st "AI returned success but no template"
        | some tmpl =>
          match env.pipeline with
          | .raised e => onExc st e
          | .bundle bundleId =>
            let st := finish_job_attempt st attemptId .success none none
            let st := update_job_status st jobId .completed (some bundleId)
              (some ("/p/" ++ toString bundleId ++ "/index.html")) none
              (some (.tmpl tmpl)) none false
            (true, st)

/-- `JobQueueMessage` of `queueDTO.py`. -/
structure JobQueueMessage where
  job_id : Nat
  attempt : Nat
  deriving DecidableEq

/-- The delay computed by `handle_message`:
`min(retry_base_delay * 2 ** (attempt - 1), retry_max_delay)`.
Queue messages always carry `attempt ≥ 1` (ingest publishes 1, retries
publish `attempt + 1`), where natural subtraction agrees with Python. -/
def backoffDelay (cfg : WorkerConfig) (attempt : Nat) : ℚ :=
  min (cfg.retry_base_delay * 2 ^ (attempt - 1)) cfg.retry_max_delay

/-- `handle_message` of `worker_service.py`: runs `process_job`, and on
a non-final outcome below the retry limit republishes
`(job_id, attempt + 1)` with the backoff delay. -/
def handle_message (env : PipelineEnv) (cfg : WorkerConfig) (msg : JobQueueMessage)
    (st : WorkerStore) : WorkerStore × Option (Nat × Nat × ℚ) :=
  let p := process_job env cfg msg.job_id msg.attempt st
  if !p.1 && msg.attempt < cfg.max_retries then
    (p.2, some (msg.job_id, msg.attempt + 1, backoffDelay cfg msg.attempt))
  else (p.2, none)

/-- A sequence of worker deliveries acting on the Store (each step is
one `process_job`; `handle_message` adds no Store mutation beyond it). -/
def runWorkerTrace (steps : List (PipelineEnv × WorkerConfig × JobQueueMessage))
    (st : WorkerStore) : WorkerStore :=
  steps.foldl (fun acc step => (process_job step.1 step.2.1 step.2.2.job_id step.2.2.attempt acc).2)
    st

/-! ### The webhook ingest

`insert_telegram_update_dedup`, `find_job_by_update_id`, `create_job`
and `mark_job_failed` are `telegram_persistence.py`;
`handle_telegram_update` is `telegram_service.py`.  Database ids are
naturals handed out by counters; the state is the committed database
plus the multiset of published queue messages.  The queue publish and
the compensating commit are the two operations the source wraps in
`try/except`, so each call takes their outcome as an input. -/

structure TgUpdateRow where
  dbId : Nat
  updateId : Int
  raw : String
  deriving DecidableEq

structure IngestJobRow where
  id : Nat
  telegramUpdateId : Nat
  chatId : Int
  userId : Option Int
  promptText : String
  status : JobStatus
  errorMessage : Option String := none
  deriving DecidableEq

structure IngestState where
  updates : List TgUpdateRow
  jobs : List IngestJobRow
  published : List (Nat × Nat)
  nextUpdateDbId : Nat
  nextJobId : Nat
  deriving DecidableEq

/-- `INSERT ... ON CONFLICT (update_id) DO NOTHING RETURNING id`: the
UNIQUE constraint on `update_id` makes a duplicate return `none`
without inserting. -/
def insert_telegram_update_dedup (st : IngestState) (updateId : Int) (raw : String) :
    Option Nat × IngestState :=
  if st.updates.any (fun r => r.updateId == updateId) then (none, st)
  else
    let dbId := st.nextUpdateDbId
    (some dbId,
      { st with
        updates := st.updates ++ [{ dbId := dbId, updateId := updateId, raw := raw }]
        nextUpdateDbId := dbId + 1 })

/-- The join predicate of `find_job_by_update_id`: the job's
`telegram_update_id` resolves (db ids are unique, so the first match is
the row) to an update row carrying the given external update id. -/
def joinsUpdate (updates : List TgUpdateRow) (updateId : Int) (j : IngestJobRow) : Bool :=
  (updates.find? fun r => r.dbId == j.telegramUpdateId).any fun r =>
    r.updateId == updateId

/-- `find_job_by_update_id`: `Job JOIN TelegramUpdate ON
Job.telegram_update_id = TelegramUpdate.id WHERE update_id = ...`. -/
def find_job_by_update_id (st : IngestState) (updateId : Int) : Option IngestJobRow :=
  st.jobs.find? (joinsUpdate st.updates updateId)

/-- `create_job`: inserts with `status="queued"` and returns the fresh
id (the source flushes to obtain it; the commit happens in the
service). -/
def create_job (st : IngestState) (telegramUpdateId : Nat) (chatId : Int)
    (userId : Option Int) (promptText : String) : Nat × IngestState :=
  let jobId := st.nextJobId
  (jobId,
    { st with
      jobs := st.jobs ++
        [{ id := jobId, telegramUpdateId := telegramUpdateId, chatId := chatId,
           userId := userId, promptText := promptText, status := .queued }]
      nextJobId := jobId + 1 })

/-- `mark_job_failed`: sets `status="failed"` and the error message on
the given job row (no predicate on the current status). -/
def mark_job_failed (st : IngestState) (jobId : Nat) (errorMessage : String) : IngestState :=
  { st with
    jobs := st.jobs.map fun j =>
      if j.id == jobId then { j with status := .failed, errorMessage := some errorMessage }
      else j }

/-! #### The Telegram update DTO (`telegramDTO.py`) -/

structure TelegramMessage where
  chatId : Int
  fromId : Option Int
  text : Option String
  caption : Option String
  deriving DecidableEq

structure TelegramUpdate where
  update_id : Int
  message : Option TelegramMessage := none
  edited_message : Option TelegramMessage := none
  channel_post : Option TelegramMessage := none
  deriving DecidableEq

/-- `self.message or self.edited_message or self.channel_post`
(pydantic model instances are always truthy). -/
def TelegramUpdate.get_message (u : TelegramUpdate) : Option TelegramMessage :=
  match u.message with
  | some m => some m
  | none =>
    match u.edited_message with
    | some m => some m
    | none => u.channel_post

/-- `(msg.text or msg.caption) if msg else None` — an empty `text`
falls through to the caption. -/
def TelegramUpdate.get_text (u : TelegramUpdate) : Option String :=
  match u.get_message with
  | none => none
  | some m =>
    match m.text with
    | some t => if t == "" then m.caption else some t
    | none => m.caption

def TelegramUpdate.get_chat_id (u : TelegramUpdate) : Option Int :=
  (u.get_message).map fun m => m.chatId

def TelegramUpdate.get_user_id (u : TelegramUpdate) : Option Int :=
  match u.get_message with
  | some m => m.fromId
  | none => none

/-- `WebhookDecision` of `telegram_service.py`. -/
structure WebhookDecision where
  ok : Bool := true
  job_id : Option Nat := none
  message : Option String := none
  send_text : Option String := none
  notify_started : Bool := false
  deriving DecidableEq

/-- `text[7:]` (Python slices count code points). -/
def strDrop (s : String) (n : Nat) : String :=
  ⟨s.toList.drop n⟩

/-- Python `str.strip()` (ASCII whitespace; the source never feeds the
exotic Unicode spaces Python would also strip). -/
def strTrim (s : String) : String :=
  ⟨((s.toList.dropWhile isWsChar).reverse.dropWhile isWsChar).reverse⟩

/-- `_extract_prompt`: `None` unless the text starts with `/prompt`;
otherwise the stripped remainder after the first 7 characters. -/
def extract_prompt (text : String) : Option String :=
  if !(strStarts text "/prompt") then none
  else some (strTrim (strDrop text 7))

/-- Python truthiness of the optional text / chat id
(`if not text or not chat_id`). -/
def optStrTruthy (v : Option String) : Bool :=
  match v with
  | some t => t != ""
  | none => false

def optIntTruthy (v : Option Int) : Bool :=
  match v with
  | some n => n != 0
  | none => false

/-- `handle_telegram_update` of `telegram_service.py`.  `publishError`
is the outcome of `mq.publish_job` (`some e` = the publish raised with
text `e`); `compensationFails` makes the compensating
find/mark/commit raise, which the source's inner
`except Exception: pass` swallows. -/
def handle_telegram_update (publishError : Option String) (compensationFails : Bool)
    (upd : TelegramUpdate) (raw : String) (st : IngestState) :
    WebhookDecision × IngestState :=
  let text? := upd.get_text
  let chat? := upd.get_chat_id
  if !(optStrTruthy text?) || !(optIntTruthy chat?) then
    ({ message := some "Ignored" }, st)
  else
    let text := text?.getD ""
    let chatId := chat?.getD 0
    let t := strTrim text
    if t == "/start" then
      ({ message := some "Start", send_text := some "WELCOME_MESSAGE" }, st)
    else if t == "/help" then
      ({ message := some "Help", send_text := some "HELP_MESSAGE" }, st)
    else
      match extract_prompt text with
      | none =>
        ({ message := some "Invalid command", send_text := some "INVALID_COMMAND_MESSAGE" }, st)
      | some promptText =>
        if promptText == "" then
          ({ message := some "Empty prompt", send_text := some "EMPTY_PROMPT_MESSAGE" }, st)
        else
          let ins := insert_telegram_update_dedup st upd.update_id raw
          match ins.1 with
          | none =>
            match find_job_by_update_id ins.2 upd.update_id with
            | some job => ({ job_id := some job.id, message := some "Already processing" }, ins.2)
            | none => ({ message := some "Already received" }, ins.2)
          | some dbId =>
            let cr := create_job ins.2 dbId chatId upd.get_user_id promptText
            let jobId := cr.1
            -- `await db.commit()`: the model state is the committed state
            match publishError with
            | some e =>
              let st2 :=
                if compensationFails then cr.2
                else
                  match find_job_by_update_id cr.2 upd.update_id with
                  | some job => mark_job_failed cr.2 job.id ("Failed to enqueue job: " ++ e)
                  | none => cr.2
              ({ job_id := some jobId, message := some "Queue publish failed",
                 send_text := some "⚠️ Queue error. Please try again." }, st2)
            | none =>
              ({ job_id := some jobId, notify_started := true },
               { cr.2 with published := cr.2.published ++ [(jobId, 1)] })

/-- N deliveries of the same webhook body, each with its own publish /
compensation outcome; returns the decisions in order and the final
state. -/
def runIngest : List (Option String × Bool) → TelegramUpdate → String → IngestState →
    List WebhookDecision × IngestState
  | [], _, _, st => ([], st)
  | f :: rest, upd, raw, st =>
    let d := handle_telegram_update f.1 f.2 upd raw st
    let ds := runIngest rest upd raw d.2
    (d.1 :: ds.1, ds.2)

/-! ### Preview bundle storage (`storage.py`) -/

/-- A flat filesystem: the set of directories and the files with their
contents. -/
structure FileSys where
  dirs : List String
  files : List (String × String)
  deriving DecidableEq

/-- `shutil.rmtree(path)`: removes the directory and everything under
it.  (`ignore_errors=True` only matters if the removal itself fails,
which the filesystem model does not exhibit.) -/
def rmTree (fs : FileSys) (path : String) : FileSys :=
  { dirs := fs.dirs.filter fun d => !(d == path || strStarts d (path ++ "/"))
    files := fs.files.filter fun f => !(strStarts f.1 (path ++ "/")) }

/-- `_ensure_base_path`: `mkdir(parents=True, exist_ok=True)`. -/
def ensureBasePath (fs : FileSys) (base : String) : FileSys :=
  if fs.dirs.contains base then fs else { fs with dirs := fs.dirs ++ [base] }

/-- `StorageService.create_bundle`.  `bundleId` is the `uuid4()` the
call draws; `mkdirFails` / `writeFails` inject the two I/O failures the
`try` block can raise.  Returns `some bundleId` on success and `none`
when the call re-raises, together with the final filesystem.  The
handler removes `bundle_path` only when it exists
(`if bundle_path.exists(): shutil.rmtree(...)`), then re-raises. -/
def create_bundle (fs : FileSys) (previewsPath : String) (bundleId : String)
    (htmlContent : String) (mkdirFails writeFails : Bool) : Option String × FileSys :=
  let fs := ensureBasePath fs previewsPath
  let bundlePath := previewsPath ++ "/" ++ bundleId
  if fs.dirs.contains bundlePath then
    -- `mkdir(exist_ok=False)` raises FileExistsError; the handler then
    -- removes the pre-existing directory and re-raises
    (none, rmTree fs bundlePath)
  else if mkdirFails then
    -- mkdir raised without creating anything; nothing to clean up
    (none, fs)
  else
    let fs := { fs with dirs := fs.dirs ++ [bundlePath] }
    if writeFails then
      (none, rmTree fs bundlePath)
    else
      (some bundleId,
        { fs with files := fs.files ++ [(bundlePath ++ "/index.html", htmlContent)] })

/-! ### Derived observations used by the statements -/

/-- How many `telegram_update` rows carry the external update id. -/
def countUpdatesFor (st : IngestState) (u : Int) : Nat :=
  (st.updates.filter fun r => r.updateId == u).length

/-- The job rows joined to the external update id (the rows
`find_job_by_update_id` selects from). -/
def jobsFor (st : IngestState) (u : Int) : List IngestJobRow :=
  st.jobs.filter (joinsUpdate st.updates u)

/-- Well-formedness of the committed database: the id counters are
ahead of every id already handed out. -/
def ingestWF (st : IngestState) : Prop :=
  (∀ r ∈ st.updates, r.dbId < st.nextUpdateDbId) ∧
    (∀ j ∈ st.jobs, j.telegramUpdateId < st.nextUpdateDbId)

/-- A webhook body that reaches the deduplication step: textual, with a
chat, not a control command, and carrying a nonempty `/prompt`
payload. -/
def isPromptDelivery (upd : TelegramUpdate) : Bool :=
  optStrTruthy upd.get_text && optIntTruthy upd.get_chat_id &&
    !(strTrim (upd.get_text.getD "") == "/start") &&
    !(strTrim (upd.get_text.getD "") == "/help") &&
    (match extract_prompt (upd.get_text.getD "") with
     | some p => p != ""
     | none => false)

/-- A sample `/prompt` webhook body carrying external update id 7. -/
def samplePromptUpdate : TelegramUpdate :=
  { update_id := 7,
    message := some { chatId := 5, fromId := some 9, text := some "/prompt make a site",
                      caption := none } }

/-- A sample `/start` command body carrying external update id 7. -/
def sampleStartUpdate : TelegramUpdate :=
  { update_id := 7,
    message := some { chatId := 5, fromId := some 9, text := some "/start", caption := none } }

/-- The empty committed ingest database. -/
def emptyIngest : IngestState :=
  { updates := [], jobs := [], published := [], nextUpdateDbId := 1, nextJobId := 1 }

/-! ## Theorems -/

/-! ### Helper lemmas -/

lemma has_errors_eq_false_iff (r : ValidationResult) :
    r.has_errors = false ↔ r.all_errors = [] := by
  constructor <;> intro h <;>
    simp_all [ValidationResult.has_errors, ValidationResult.all_errors, List.isEmpty_iff,
      List.append_eq_nil]

lemma valid_eq_not_has_errors (pkg : JsonVal) :
    (validate pkg).valid = !(validate pkg).has_errors := rfl

lemma mem_collectIdx (f : Nat → JsonVal → List String) (elems : List JsonVal)
    (i : Nat) (x : JsonVal) (hx : elems[i]? = some x) (s : String) (hs : s ∈ f i x) :
    s ∈ collectIdx f elems := by
  unfold collectIdx
  refine List.mem_flatten.mpr ⟨f i x, ?_, hs⟩
  refine List.mem_map.mpr ⟨(i, x), ?_, rfl⟩
  exact List.mk_mem_enum_iff_getElem?.mpr hx

/-! ### C5 — the validator is pure, deterministic and idempotent -/

/-- C5: `TemplateValidator.validate` is a pure function of its input —
embedded as such, it is trivially deterministic and does not mutate the
template — accepting (valid = true) is idempotent, and `valid` is true
exactly when no error layer produced an entry. -/
theorem validate_pure_deterministic_idempotent (pkg : JsonVal) :
    validate pkg = validate pkg ∧
    ((validate pkg).valid = true → (validate pkg).valid = true) ∧
    ((validate pkg).valid = true ↔ (validate pkg).all_errors = []) := by
  refine ⟨rfl, fun h => h, ?_⟩
  rw [valid_eq_not_has_errors, ← has_errors_eq_false_iff]
  cases h : (validate pkg).has_errors <;> simp

/-- Witness for C5 at a concrete template. -/
theorem validate_pure_deterministic_idempotent_witness :
    (validate (JsonVal.obj [])).valid = true ∧ (validate (JsonVal.obj [])).all_errors = [] := by
  refine ⟨by decide, ?_⟩
  exact ((validate_pure_deterministic_idempotent (JsonVal.obj [])).2.2).mp (by decide)

/-! ### C6 — endpoint validation -/

/-- C6 counterexample: the claim demands a format error for every
endpoint string matching neither form, but the source skips falsy
endpoints (`if ep and ...`): the empty endpoint string matches neither
form and produces no error. -/
theorem endpoint_empty_counterexample :
    validate_endpoints (JsonVal.obj [("dataSources", JsonVal.arr [JsonVal.obj [("endpoint", JsonVal.str "")]])]) = [] ∧
    apiMatch "" = false ∧ moduleMatch "" = false := by decide

/-- C6 (amended): every NONEMPTY endpoint string of a dict entry of
`dataSources` or `actions` that matches neither the API form nor the
Module form contributes a format error, and every nonempty endpoint
containing a dangerous substring contributes a dangerous-endpoint
error regardless of format; `DROP.TABLES` yields exactly both. -/
theorem endpoint_validation_errors :
    (∀ (pkg ds : JsonVal) (i : Nat) (ep : String) (fs : List (String × JsonVal)),
      (getElems pkg "dataSources")[i]? = some ds → ds = JsonVal.obj fs →
      getStrD ds "endpoint" "" = ep → ep ≠ "" →
      ((apiMatch ep || moduleMatch ep) = false →
        ("dataSources[" ++ toString i ++ "].endpoint '" ++ ep ++ "' invalid format")
          ∈ validate_endpoints pkg) ∧
      (dangerousSearch ep = true →
        ("dataSources[" ++ toString i ++ "].endpoint '" ++ ep ++ "' matches dangerous pattern")
          ∈ validate_endpoints pkg)) ∧
    (∀ (pkg ac : JsonVal) (i : Nat) (ep : String) (fs : List (String × JsonVal)),
      (getElems pkg "actions")[i]? = some ac → ac = JsonVal.obj fs →
      getStrD ac "endpoint" "" = ep → ep ≠ "" →
      ((apiMatch ep || moduleMatch ep) = false →
        ("actions[" ++ toString i ++ "].endpoint '" ++ ep ++ "' invalid format")
          ∈ validate_endpoints pkg) ∧
      (dangerousSearch ep = true →
        ("actions[" ++ toString i ++ "].endpoint '" ++ ep ++ "' matches dangerous pattern")
          ∈ validate_endpoints pkg)) ∧
    validate_endpoints (JsonVal.obj [("dataSources", JsonVal.arr [JsonVal.obj [("endpoint", JsonVal.str "DROP.TABLES")]])]) =
      ["dataSources[0].endpoint 'DROP.TABLES' invalid format",
       "dataSources[0].endpoint 'DROP.TABLES' matches dangerous pattern"] := by
  refine ⟨?_, ?_, by decide⟩
  · intro pkg ds i ep fs hx hds hep hne
    have hbne : (ep != "") = true := by simpa using hne
    constructor
    · intro hfmt
      unfold validate_endpoints
      apply List.mem_append_left
      refine mem_collectIdx _ _ i ds hx _ ?_
      subst hds
      simp only [hep, hbne, hfmt]
      simp
    · intro hdang
      unfold validate_endpoints
      apply List.mem_append_left
      refine mem_collectIdx _ _ i ds hx _ ?_
      subst hds
      simp only [hep, hbne, hdang]
      apply List.mem_append_right
      simp
  · intro pkg ac i ep fs hx hac hep hne
    have hbne : (ep != "") = true := by simpa using hne
    constructor
    · intro hfmt
      unfold validate_endpoints
      apply List.mem_append_right
      refine mem_collectIdx _ _ i ac hx _ ?_
      subst hac
      simp only [hep, hbne, hfmt]
      simp
    · intro hdang
      unfold validate_endpoints
      apply List.mem_append_right
      refine mem_collectIdx _ _ i ac hx _ ?_
      subst hac
      simp only [hep, hbne, hdang]
      apply List.mem_append_right
      simp

/-- Witness for C6 at a concrete package. -/
theorem endpoint_validation_errors_witness :
    ("dataSources[0].endpoint 'nope' invalid format")
      ∈ validate_endpoints (JsonVal.obj [("dataSources", JsonVal.arr [JsonVal.obj [("endpoint", JsonVal.str "nope")]])]) := by
  exact ((endpoint_validation_errors.1
    (JsonVal.obj [("dataSources", JsonVal.arr [JsonVal.obj [("endpoint", JsonVal.str "nope")]])])
    (JsonVal.obj [("endpoint", JsonVal.str "nope")]) 0 "nope" [("endpoint", JsonVal.str "nope")]
    rfl rfl rfl (by decide)).1 (by decide))

/-! ### C7 — theme validation -/

/-- C7 counterexample: the claim demands an error exactly when
`primaryColor` is present and fails the hex regex, but the source also
accepts the CSS named colors and `rgb`/`hsl` prefixes: `"red"` is
present, matches no hex form, and produces no error. -/
theorem theme_named_color_counterexample :
    validate_theme (JsonVal.obj [("theme", JsonVal.obj [("primaryColor", JsonVal.str "red")])]) = [] ∧
    (hexColorMatch 3 "red" || hexColorMatch 6 "red" || hexColorMatch 8 "red") = false := by decide

/-- C7 (amended): for a nonempty theme dict with a nonempty string
`primaryColor` and a present `darkMode`, `validate_theme` reports the
primaryColor error exactly when the value matches none of the 3/6/8
hex forms AND is not a recognized CSS color name AND does not start
with `rgb` or `hsl`; and reports the darkMode error exactly when the
value is neither null nor a boolean.  `#fff`, `#ffffff` and
`#ffffffff` are accepted while `#ffff` is an error. -/
theorem theme_validation_characterization :
    (∀ (pkg : JsonVal) (fs : List (String × JsonVal)) (s : String) (v : JsonVal),
      pkg.get "theme" = some (JsonVal.obj fs) → fs ≠ [] →
      (JsonVal.obj fs).get "primaryColor" = some (JsonVal.str s) → s ≠ "" →
      (JsonVal.obj fs).get "darkMode" = some v →
      validate_theme pkg =
        (if (hexColorMatch 3 s || hexColorMatch 6 s || hexColorMatch 8 s) = true then []
         else if (cssNamedColors.contains (strLower s) || strStarts s "rgb" || strStarts s "hsl") = true then []
         else ["theme.primaryColor '" ++ s ++ "' is not a valid hex color format"]) ++
        (match v with
         | .null => []
         | .bool _ => []
         | _ => ["theme.darkMode: expected boolean, got " ++ pyTypeName v])) ∧
    validate_theme (JsonVal.obj [("theme", JsonVal.obj [("primaryColor", JsonVal.str "#fff")])]) = [] ∧
    validate_theme (JsonVal.obj [("theme", JsonVal.obj [("primaryColor", JsonVal.str "#ffffff")])]) = [] ∧
    validate_theme (JsonVal.obj [("theme", JsonVal.obj [("primaryColor", JsonVal.str "#ffffffff")])]) = [] ∧
    validate_theme (JsonVal.obj [("theme", JsonVal.obj [("primaryColor", JsonVal.str "#ffff")])]) =
      ["theme.primaryColor '#ffff' is not a valid hex color format"] := by
  refine ⟨?_, by decide, by decide, by decide, by decide⟩
  intro pkg fs s v hth hfs hc hs hd
  have hfsE : fs.isEmpty = false := by
    cases fs with
    | nil => exact absurd rfl hfs
    | cons a l => rfl
  have hsB : (s != "") = true := by simpa using hs
  unfold validate_theme
  rw [hth]
  simp only [hfsE, Bool.false_eq_true, if_false, hc, hd]
  have htr : (JsonVal.str s).truthy = true := by
    simp [JsonVal.truthy, hsB]
  rw [htr]
  simp only [Bool.not_true, Bool.false_eq_true, if_false]
  congr 1
  cases v <;> rfl

/-- Witness for C7 at a concrete theme (both errors at once). -/
theorem theme_validation_characterization_witness :
    validate_theme (JsonVal.obj [("theme", JsonVal.obj
        [("primaryColor", JsonVal.str "#12"), ("darkMode", JsonVal.num 1)])]) =
      ["theme.primaryColor '#12' is not a valid hex color format",
       "theme.darkMode: expected boolean, got int"] := by
  have h := theme_validation_characterization.1
    (JsonVal.obj [("theme", JsonVal.obj
      [("primaryColor", JsonVal.str "#12"), ("darkMode", JsonVal.num 1)])])
    [("primaryColor", JsonVal.str "#12"), ("darkMode", JsonVal.num 1)]
    "#12" (JsonVal.num 1) rfl (by simp) rfl (by decide) rfl
  rw [h]
  decide

/-! ### C8 — route validation -/

/-- C8 counterexample: the claim demands a route error whenever the
route fails the route regex, but the source only adds an error in that
case when the route contains `?` or does not start with `/`: the route
`/a.b` fails the regex yet produces no error. -/
theorem route_dot_counterexample :
    validate_route (JsonVal.obj [("metadata", JsonVal.obj [("route", JsonVal.str "/a.b")])]) = [] ∧
    routeValidMatch "/a.b" = false ∧ strStarts "/a.b" "/" = true := by decide

/-- C8 (amended): for a nonempty string route, the reported errors are
exactly: one per dangerous pattern matched (a script tag,
`javascript:`, the substring `../`, or any angle bracket / quote
character), followed — only when the route fails the route regex — by
a query-string error if it contains `?`, else a must-start-with-`/`
error if it lacks the leading slash, else nothing.  In particular
`/../admin` yields the traversal error. -/
theorem route_validation_characterization :
    (∀ (pkg : JsonVal) (r : String),
      (getMetadata pkg).get "route" = some (JsonVal.str r) → r ≠ "" →
      validate_route pkg =
        ((ROUTE_DANGEROUS.filter fun p => patSearch p.1 (strLower r)).map
          fun p => "metadata.route '" ++ r ++ "' contains " ++ p.2) ++
        (if routeValidMatch r = true then []
         else if strContainsSub r "?" = true then
           ["metadata.route '" ++ r ++ "' contains query string - handle separately"]
         else if strStarts r "/" = false then
           ["metadata.route '" ++ r ++ "' must start with '/'"]
         else [])) ∧
    validate_route (JsonVal.obj [("metadata", JsonVal.obj [("route", JsonVal.str "/../admin")])]) =
      ["metadata.route '/../admin' contains directory traversal (..)"] := by
  refine ⟨?_, by decide⟩
  intro pkg r hr hne
  have hrB : (r != "") = true := by simpa using hne
  unfold validate_route
  rw [hr]
  have htr : (JsonVal.str r).truthy = true := by
    simp [JsonVal.truthy, hrB]
  simp only [htr, Bool.not_true, Bool.false_eq_true, if_false]
  congr 1
  by_cases h1 : routeValidMatch r = true
  · simp [h1]
  · simp only [Bool.not_eq_true] at h1
    simp only [h1, Bool.false_eq_true, if_false]
    by_cases h2 : strContainsSub r "?" = true
    · simp [h2]
    · simp only [Bool.not_eq_true] at h2
      simp only [h2, Bool.false_eq_true, if_false]
      by_cases h3 : strStarts r "/" = true
      · simp [h3]
      · simp only [Bool.not_eq_true] at h3
        simp [h3]

/-- Witness for C8 at a concrete route. -/
theorem route_validation_characterization_witness :
    validate_route (JsonVal.obj [("metadata", JsonVal.obj [("route", JsonVal.str "page<b>")])]) =
      ["metadata.route 'page<b>' contains special characters",
       "metadata.route 'page<b>' must start with '/'"] := by
  have h := route_validation_characterization.1
    (JsonVal.obj [("metadata", JsonVal.obj [("route", JsonVal.str "page<b>")])])
    "page<b>" rfl (by decide)
  rw [h]
  decide

/-! ### C9 — retry backoff -/

/-- C9: whenever `process_job` reports a retryable (non-final) outcome
for attempt `n ≥ 1` with `n < max_retries`, `handle_message`
republishes `(job_id, n + 1)` delayed by exactly
`min(retry_base_delay * 2^(n-1), retry_max_delay)`; when the delays are
ordered (`base ≤ cap`, guaranteed by the configuration bounds) the
first retry waits exactly `retry_base_delay`, and each subsequent
delay doubles the previous un-capped value up to the cap. -/
theorem retry_backoff_formula (env : PipelineEnv) (cfg : WorkerConfig)
    (msg : JobQueueMessage) (st : WorkerStore)
    (h1 : 1 ≤ msg.attempt) (h2 : msg.attempt < cfg.max_retries)
    (h3 : (process_job env cfg msg.job_id msg.attempt st).1 = false) :
    (handle_message env cfg msg st).2 =
      some (msg.job_id, msg.attempt + 1,
        min (cfg.retry_base_delay * 2 ^ (msg.attempt - 1)) cfg.retry_max_delay) ∧
    (msg.attempt = 1 → cfg.retry_base_delay ≤ cfg.retry_max_delay →
      (handle_message env cfg msg st).2 = some (msg.job_id, 2, cfg.retry_base_delay)) ∧
    (∀ n, 1 ≤ n → backoffDelay cfg (n + 1) =
      min (2 * (cfg.retry_base_delay * 2 ^ (n - 1))) cfg.retry_max_delay) := by
  have hmain : (handle_message env cfg msg st).2 =
      some (msg.job_id, msg.attempt + 1,
        min (cfg.retry_base_delay * 2 ^ (msg.attempt - 1)) cfg.retry_max_delay) := by
    simp only [handle_message, h3]
    simp [h2, backoffDelay]
  refine ⟨hmain, ?_, ?_⟩
  · intro ha hbc
    rw [ha] at hmain
    rw [hmain]
    simp [min_eq_left hbc]
  · intro n hn
    unfold backoffDelay
    congr 1
    have hrw : n = (n - 1) + 1 := by omega
    calc cfg.retry_base_delay * 2 ^ ((n + 1) - 1)
        = cfg.retry_base_delay * 2 ^ ((n - 1) + 1) := by rw [Nat.add_sub_cancel, ← hrw]
      _ = 2 * (cfg.retry_base_delay * 2 ^ (n - 1)) := by rw [pow_succ]; ring

/-- Witness for C9: first retry of a rate-limited attempt under the
default settings waits exactly 5 seconds. -/
theorem retry_backoff_formula_witness :
    (handle_message
      { genResult := { success := false, error := some "Rate limited", retryable := true },
        pipeline := .raised "unused" }
      defaultSettings { job_id := 1, attempt := 1 }
      { jobs := [{ id := 1, chatId := 5, promptText := "p", status := .queued, attemptCount := 0 }],
        attempts := [] }).2 = some (1, 2, 5) := by
  have h := retry_backoff_formula
    { genResult := { success := false, error := some "Rate limited", retryable := true },
      pipeline := .raised "unused" }
    defaultSettings { job_id := 1, attempt := 1 }
    { jobs := [{ id := 1, chatId := 5, promptText := "p", status := .queued, attemptCount := 0 }],
      attempts := [] }
    (by decide) (by decide) (by decide)
  have h1 := h.2.1 rfl (by norm_num [defaultSettings])
  rw [h1]
  norm_num [defaultSettings]

/-! ### C10 — bundle creation is error-atomic -/



/-- C10: under a fresh bundle id (no existing directory or content at
the bundle path — what `uuid4` provides), `create_bundle` either
returns the bundle id having created exactly the bundle directory with
`index.html` holding the rendered HTML, or re-raises with the
filesystem restored to just the ensured base path: a failed call never
leaves a bundle directory behind. -/
theorem create_bundle_atomic (fs : FileSys) (prev bid html : String) (mkF wF : Bool)
    (h1 : (ensureBasePath fs prev).dirs.contains (prev ++ "/" ++ bid) = false)
    (h2 : ∀ d ∈ (ensureBasePath fs prev).dirs,
      strStarts d (prev ++ "/" ++ bid ++ "/") = false)
    (h3 : ∀ f ∈ fs.files, strStarts f.1 (prev ++ "/" ++ bid ++ "/") = false) :
    (mkF = false → wF = false →
      create_bundle fs prev bid html mkF wF =
        (some bid,
          { dirs := (ensureBasePath fs prev).dirs ++ [prev ++ "/" ++ bid]
            files := fs.files ++ [(prev ++ "/" ++ bid ++ "/index.html", html)] })) ∧
    ((mkF = true ∨ wF = true) →
      (create_bundle fs prev bid html mkF wF).1 = none ∧
      (create_bundle fs prev bid html mkF wF).2 = ensureBasePath fs prev) := by
  have h1m : (prev ++ "/" ++ bid) ∉ (ensureBasePath fs prev).dirs := by
    simpa using h1
  have hfiles : (ensureBasePath fs prev).files = fs.files := by
    unfold ensureBasePath
    split <;> rfl
  have hclean : rmTree
      { dirs := (ensureBasePath fs prev).dirs ++ [prev ++ "/" ++ bid]
        files := (ensureBasePath fs prev).files } (prev ++ "/" ++ bid) =
      ensureBasePath fs prev := by
    unfold rmTree
    have hd2 : ((ensureBasePath fs prev).dirs ++ [prev ++ "/" ++ bid]).filter
        (fun d => !(d == prev ++ "/" ++ bid || strStarts d (prev ++ "/" ++ bid ++ "/"))) =
        (ensureBasePath fs prev).dirs := by
      rw [List.filter_append]
      have hone : ([prev ++ "/" ++ bid].filter
          (fun d => !(d == prev ++ "/" ++ bid ||
            strStarts d (prev ++ "/" ++ bid ++ "/")))) = [] := by
        simp
      rw [hone, List.append_nil, List.filter_eq_self]
      intro d hd
      have hne : (d == prev ++ "/" ++ bid) = false := by
        rw [beq_eq_false_iff_ne]
        intro he
        exact h1m (he ▸ hd)
      simp [hne, h2 d hd]
    have hf2 : ((ensureBasePath fs prev).files).filter
        (fun f => !(strStarts f.1 (prev ++ "/" ++ bid ++ "/"))) =
        (ensureBasePath fs prev).files := by
      rw [List.filter_eq_self]
      intro f hf
      rw [hfiles] at hf
      simp [h3 f hf]
    simp only [hd2, hf2]
  constructor
  · intro hm hw
    subst hm; subst hw
    unfold create_bundle
    simp only [h1, Bool.false_eq_true, if_false]
    rw [hfiles]
  · intro hor
    cases hor with
    | inl hm =>
      subst hm
      unfold create_bundle
      simp only [h1, Bool.false_eq_true, if_false]
      exact ⟨rfl, rfl⟩
    | inr hw =>
      subst hw
      cases mkF with
      | true =>
        unfold create_bundle
        simp only [h1, Bool.false_eq_true, if_false]
        exact ⟨rfl, rfl⟩
      | false =>
        unfold create_bundle
        simp only [h1, Bool.false_eq_true, if_false]
        exact ⟨rfl, hclean⟩

/-- Witness for C10: a failing `index.html` write removes the freshly
created bundle directory before the exception propagates. -/
theorem create_bundle_atomic_witness :
    (create_bundle { dirs := [], files := [] } "/previews" "b1" "<html>" false true).1 = none ∧
    (create_bundle { dirs := [], files := [] } "/previews" "b1" "<html>" false true).2 =
      ensureBasePath { dirs := [], files := [] } "/previews" :=
  (create_bundle_atomic { dirs := [], files := [] } "/previews" "b1" "<html>" false true
    (by decide)
    (by
      intro d hd
      simp only [ensureBasePath, List.contains_nil, Bool.false_eq_true, if_false,
        List.nil_append, List.mem_singleton] at hd
      subst hd
      decide)
    (by simp)).2 (Or.inr rfl)

/-! ### Worker Store lemmas -/

lemma find?_map_ite_ne (l : List JobRow) (tid jid : Nat) (hne : jid ≠ tid)
    (f : JobRow → JobRow) (hf : ∀ j, (f j).id = j.id) :
    (l.map fun j => if j.id == tid then f j else j).find? (fun j => j.id == jid) =
      l.find? fun j => j.id == jid := by
  induction l with
  | nil => rfl
  | cons a l ih =>
    simp only [List.map_cons]
    by_cases ha : (a.id == tid) = true
    · have haid : a.id = tid := by simpa using ha
      have hj : ((f a).id == jid) = false := by
        rw [beq_eq_false_iff_ne, hf a, haid]
        exact fun h => hne h.symm
      have hj2 : (a.id == jid) = false := by
        rw [beq_eq_false_iff_ne, haid]
        exact fun h => hne h.symm
      rw [if_pos ha, List.find?_cons_of_neg _ (by simp [hj]), List.find?_cons_of_neg _ (by simp [hj2])]
      exact ih
    · rw [if_neg ha]
      by_cases hj : (a.id == jid) = true
      · rw [List.find?_cons_of_pos _ (by simp [hj]), List.find?_cons_of_pos _ (by simp [hj])]
      · rw [List.find?_cons_of_neg _ (by simp [hj]), List.find?_cons_of_neg _ (by simp [hj])]
        exact ih

lemma find?_map_ite_self (l : List JobRow) (tid : Nat)
    (f : JobRow → JobRow) (hf : ∀ j, (f j).id = j.id) :
    (l.map fun j => if j.id == tid then f j else j).find? (fun j => j.id == tid) =
      (l.find? fun j => j.id == tid).map f := by
  induction l with
  | nil => rfl
  | cons a l ih =>
    simp only [List.map_cons]
    by_cases ha : (a.id == tid) = true
    · have hfa : ((f a).id == tid) = true := by
        rw [hf a]
        exact ha
      rw [if_pos ha, List.find?_cons_of_pos _ (by simp [hfa]),
        List.find?_cons_of_pos _ (by simp [ha])]
      rfl
    · rw [if_neg ha, List.find?_cons_of_neg _ (by simp [ha]),
        List.find?_cons_of_neg _ (by simp [ha])]
      exact ih

lemma fetch_job_update_ne (st : WorkerStore) (tid : Nat) (s : JobStatus)
    (b : Option Nat) (p e : Option String) (r : Option RawResp)
    (v : Option (List String)) (i : Bool) (jid : Nat) (h : jid ≠ tid) :
    fetch_job (update_job_status st tid s b p e r v i) jid = fetch_job st jid := by
  unfold fetch_job update_job_status
  exact find?_map_ite_ne _ _ _ h _ (fun j => rfl)

lemma fetch_job_create_attempt (st : WorkerStore) (a n : Nat) (pr : String) (jid : Nat) :
    fetch_job (create_job_attempt st a n pr).2 jid = fetch_job st jid := rfl

lemma fetch_job_finish_attempt (st : WorkerStore) (aid : Nat) (o : AttemptOutcome)
    (e : Option String) (c : Option Nat) (jid : Nat) :
    fetch_job (finish_job_attempt st aid o e c) jid = fetch_job st jid := by
  unfold finish_job_attempt fetch_job
  cases st.attempts.find? (fun a => a.id == aid) <;> rfl

lemma attemptCount_update_noinc (st : WorkerStore) (tid : Nat) (s : JobStatus)
    (b : Option Nat) (p e : Option String) (r : Option RawResp)
    (v : Option (List String)) :
    (fetch_job (update_job_status st tid s b p e r v false) tid).map (fun x => x.attemptCount) =
      (fetch_job st tid).map fun x => x.attemptCount := by
  unfold fetch_job update_job_status
  simp only []
  generalize st.jobs = l
  induction l with
  | nil => rfl
  | cons a l ih =>
    simp only [List.map_cons]
    by_cases ha : (a.id == tid) = true
    · rw [if_pos ha]
      simp [List.find?_cons, ha]
    · rw [if_neg ha]
      simp only [List.find?_cons, ha]
      exact ih

lemma attemptCount_update_inc (st : WorkerStore) (tid : Nat) (s : JobStatus)
    (b : Option Nat) (p e : Option String) (r : Option RawResp)
    (v : Option (List String)) :
    (fetch_job (update_job_status st tid s b p e r v true) tid).map (fun x => x.attemptCount) =
      (fetch_job st tid).map fun x => x.attemptCount + 1 := by
  unfold fetch_job update_job_status
  simp only []
  generalize st.jobs = l
  induction l with
  | nil => rfl
  | cons a l ih =>
    simp only [List.map_cons]
    by_cases ha : (a.id == tid) = true
    · rw [if_pos ha]
      simp [List.find?_cons, ha]
    · rw [if_neg ha]
      simp only [List.find?_cons, ha]
      exact ih

lemma attempts_update (st : WorkerStore) (tid : Nat) (s : JobStatus)
    (b : Option Nat) (p e : Option String) (r : Option RawResp)
    (v : Option (List String)) (i : Bool) :
    (update_job_status st tid s b p e r v i).attempts = st.attempts := rfl

lemma exists_attempt_create (st : WorkerStore) (jid n : Nat) (pr : String) :
    ∃ a ∈ (create_job_attempt st jid n pr).2.attempts, a.jobId = jid ∧ a.attemptNo = n := by
  refine ⟨{ id := st.nextAttemptId, jobId := jid, attemptNo := n, providerName := pr }, ?_, rfl, rfl⟩
  unfold create_job_attempt
  simp

lemma exists_attempt_finish (st : WorkerStore) (aid : Nat) (o : AttemptOutcome)
    (e : Option String) (c : Option Nat) (jid n : Nat)
    (h : ∃ a ∈ st.attempts, a.jobId = jid ∧ a.attemptNo = n) :
    ∃ a ∈ (finish_job_attempt st aid o e c).attempts, a.jobId = jid ∧ a.attemptNo = n := by
  obtain ⟨a, hmem, hj, hn⟩ := h
  unfold finish_job_attempt
  cases st.attempts.find? (fun x => x.id == aid) with
  | none => exact ⟨a, hmem, hj, hn⟩
  | some _ =>
    refine ⟨if a.id == aid then
      { a with finished := true, outcome := some o, errorDetail := e,
               providerStatusCode := c } else a, ?_, ?_⟩
    · simpa using List.mem_map_of_mem _ hmem
    · by_cases ha : (a.id == aid) = true <;> simp [ha, hj, hn]

/-- One worker step never touches a job row that is already terminal:
the message for that job short-circuits, and messages for other jobs
only update their own rows. -/
lemma process_job_preserves_row (env : PipelineEnv) (cfg : WorkerConfig)
    (jid attempt : Nat) (st : WorkerStore) (target : Nat) (j : JobRow)
    (hfound : fetch_job st target = some j)
    (hterm : j.status = .completed ∨ j.status = .failed) :
    fetch_job (process_job env cfg jid attempt st).2 target = some j := by
  unfold process_job
  cases hf : fetch_job st jid with
  | none => simpa using hfound
  | some job =>
    by_cases hjt : jid = target
    · subst hjt
      rw [hfound] at hf
      injection hf with hjj
      subst hjj
      rcases hterm with h | h <;> simp [h, hfound]
    · have hne2 : target ≠ jid := fun hh => hjt hh.symm
      simp only []
      repeat' split
      all_goals try simp only [fetch_job_update_ne _ _ _ _ _ _ _ _ _ _ hne2,
        fetch_job_create_attempt, fetch_job_finish_attempt]
      all_goals exact hfound

/-! ### C3 — terminal states are absorbing -/

/-- C3: once a job is COMPLETED or FAILED, a queue redelivery naming it
is acknowledged (`process_job` returns `true`) with the Store entirely
unchanged, and along any further sequence of worker deliveries the
job's row — every attribute — stays exactly as it was, so no job is
ever observed in two distinct terminal states. -/
theorem terminal_states_absorbing (env : PipelineEnv) (cfg : WorkerConfig)
    (attempt : Nat) (st : WorkerStore) (target : Nat) (j : JobRow)
    (steps : List (PipelineEnv × WorkerConfig × JobQueueMessage))
    (hfound : fetch_job st target = some j)
    (hterm : j.status = .completed ∨ j.status = .failed) :
    process_job env cfg target attempt st = (true, st) ∧
    fetch_job (runWorkerTrace steps st) target = some j := by
  constructor
  · unfold process_job
    rw [hfound]
    rcases hterm with h | h <;> simp [h]
  · induction steps generalizing st with
    | nil => exact hfound
    | cons s rest ih =>
      unfold runWorkerTrace
      rw [List.foldl_cons]
      exact ih _ (process_job_preserves_row s.1 s.2.1 s.2.2.job_id s.2.2.attempt st target j
        hfound hterm)

/-- Witness for C3: redelivery of a message for a completed job leaves
the Store untouched, also across a later trace. -/
theorem terminal_states_absorbing_witness :
    process_job
      { genResult := { success := true, template := some "T" }, pipeline := .bundle 9 }
      defaultSettings 1 2
      { jobs := [{ id := 1, chatId := 5, promptText := "p", status := .completed,
                   attemptCount := 1, bundleId := some 7 }], attempts := [] } =
      (true,
       { jobs := [{ id := 1, chatId := 5, promptText := "p", status := .completed,
                    attemptCount := 1, bundleId := some 7 }], attempts := [] }) ∧
    fetch_job (runWorkerTrace
      [({ genResult := { success := true, template := some "T" }, pipeline := .bundle 9 },
        defaultSettings, { job_id := 1, attempt := 2 })]
      { jobs := [{ id := 1, chatId := 5, promptText := "p", status := .completed,
                   attemptCount := 1, bundleId := some 7 }], attempts := [] }) 1 =
      some { id := 1, chatId := 5, promptText := "p", status := .completed,
             attemptCount := 1, bundleId := some 7 } :=
  terminal_states_absorbing
    { genResult := { success := true, template := some "T" }, pipeline := .bundle 9 }
    defaultSettings 2
    { jobs := [{ id := 1, chatId := 5, promptText := "p", status := .completed,
                 attemptCount := 1, bundleId := some 7 }], attempts := [] }
    1
    { id := 1, chatId := 5, promptText := "p", status := .completed,
      attemptCount := 1, bundleId := some 7 }
    [({ genResult := { success := true, template := some "T" }, pipeline := .bundle 9 },
      defaultSettings, { job_id := 1, attempt := 2 })]
    (by decide) (Or.inl rfl)

/-! ### C2 — opening an attempt -/

/-- C2 counterexample: `update_job_status` carries no compare-and-set —
its UPDATE filters on the job id alone — and `process_job` never
returns a CONFLICT.  A job already RUNNING (status ≠ QUEUED) is not
rejected and not left unchanged: the run proceeds, increments
`attempt_count` a second time, appends a second attempt row and drives
the job on. -/
theorem open_attempt_no_conflict_counterexample :
    (process_job
      { genResult := { success := false, error := some "bad", retryable := false },
        pipeline := .raised "x" }
      defaultSettings 1 2
      { jobs := [{ id := 1, chatId := 5, promptText := "p", status := .running,
                   attemptCount := 1 }],
        attempts := [{ id := 1, jobId := 1, attemptNo := 1, providerName := "mock" }],
        nextAttemptId := 2 }).1 = true ∧
    (fetch_job (process_job
      { genResult := { success := false, error := some "bad", retryable := false },
        pipeline := .raised "x" }
      defaultSettings 1 2
      { jobs := [{ id := 1, chatId := 5, promptText := "p", status := .running,
                   attemptCount := 1 }],
        attempts := [{ id := 1, jobId := 1, attemptNo := 1, providerName := "mock" }],
        nextAttemptId := 2 }).2 1).map (fun j => (j.status, j.attemptCount)) =
      some (JobStatus.failed, 2) := by decide

/-- C2 (amended): `process_job` opens an attempt on any job found in a
non-terminal state — QUEUED or RUNNING alike — with no CONFLICT
outcome: the RUNNING transition with the `attempt_count` increment is
one transaction and the Attempt-row insert is a separate one, and the
run always leaves the job with `attempt_count` incremented exactly
once and a new attempt row carrying the message's attempt number, so
the Store's own writes do not prevent a second RUNNING episode. -/
theorem open_attempt_unconditional (env : PipelineEnv) (cfg : WorkerConfig)
    (jid attempt : Nat) (st : WorkerStore) (j : JobRow)
    (hfound : fetch_job st jid = some j)
    (hnc : j.status ≠ .completed) (hnf : j.status ≠ .failed) :
    (fetch_job (process_job env cfg jid attempt st).2 jid).map (fun x => x.attemptCount) =
      some (j.attemptCount + 1) ∧
    (∃ a ∈ (process_job env cfg jid attempt st).2.attempts,
      a.jobId = jid ∧ a.attemptNo = attempt) := by
  have hcond : (decide (j.status = JobStatus.completed) ||
      decide (j.status = JobStatus.failed)) = false := by
    simp [hnc, hnf]
  unfold process_job
  rw [hfound]
  simp only [hcond, Bool.false_eq_true, if_false]
  constructor
  · repeat' split
    all_goals try simp only [attemptCount_update_noinc, fetch_job_finish_attempt,
      fetch_job_create_attempt, attemptCount_update_inc]
    all_goals simp [hfound]
  · repeat' split
    all_goals try simp only [attempts_update]
    all_goals exact exists_attempt_finish _ _ _ _ _ _ _ (exists_attempt_create _ _ _ _)

/-- Witness for C2 at a concrete RUNNING job. -/
theorem open_attempt_unconditional_witness :
    (fetch_job (process_job
      { genResult := { success := false, error := some "bad", retryable := false },
        pipeline := .raised "x" }
      defaultSettings 1 2
      { jobs := [{ id := 1, chatId := 5, promptText := "p", status := .running,
                   attemptCount := 1 }],
        attempts := [] }).2 1).map (fun x => x.attemptCount) = some 2 ∧
    (∃ a ∈ (process_job
      { genResult := { success := false, error := some "bad", retryable := false },
        pipeline := .raised "x" }
      defaultSettings 1 2
      { jobs := [{ id := 1, chatId := 5, promptText := "p", status := .running,
                   attemptCount := 1 }],
        attempts := [] }).2.attempts, a.jobId = 1 ∧ a.attemptNo = 2) :=
  open_attempt_unconditional
    { genResult := { success := false, error := some "bad", retryable := false },
      pipeline := .raised "x" }
    defaultSettings 1 2
    { jobs := [{ id := 1, chatId := 5, promptText := "p", status := .running,
                 attemptCount := 1 }],
      attempts := [] }
    { id := 1, chatId := 5, promptText := "p", status := .running, attemptCount := 1 }
    (by decide) (by decide) (by decide)

lemma handle_nonprompt (pe : Option String) (cf : Bool) (upd : TelegramUpdate)
    (raw : String) (st : IngestState)
    (h : isPromptDelivery upd = false) :
    (handle_telegram_update pe cf upd raw st).2 = st := by
  unfold handle_telegram_update
  simp only []
  by_cases h1 : (!(optStrTruthy upd.get_text) || !(optIntTruthy upd.get_chat_id)) = true
  · rw [if_pos h1]
  · rw [if_neg h1]
    by_cases h2 : (strTrim (upd.get_text.getD "") == "/start") = true
    · rw [if_pos h2]
    · rw [if_neg h2]
      by_cases h3 : (strTrim (upd.get_text.getD "") == "/help") = true
      · rw [if_pos h3]
      · rw [if_neg h3]
        cases hex : extract_prompt (upd.get_text.getD "") with
        | none => simp only [hex]
        | some p =>
          simp only [hex]
          by_cases hp : (p == "") = true
          · rw [if_pos hp]
          · exfalso
            rw [Bool.or_eq_true, not_or] at h1
            obtain ⟨ha, hb⟩ := h1
            rw [Bool.not_eq_true, Bool.not_eq_false'] at ha hb
            rw [Bool.not_eq_true] at h2 h3 hp
            rw [isPromptDelivery, ha, hb, h2, h3, hex] at h
            simp at h
            simp [h] at hp

lemma promptDelivery_parts (upd : TelegramUpdate) (hp : isPromptDelivery upd = true) :
    optStrTruthy upd.get_text = true ∧ optIntTruthy upd.get_chat_id = true ∧
    (strTrim (upd.get_text.getD "") == "/start") = false ∧
    (strTrim (upd.get_text.getD "") == "/help") = false ∧
    ∃ p, extract_prompt (upd.get_text.getD "") = some p ∧ (p == "") = false := by
  rw [isPromptDelivery] at hp
  simp only [Bool.and_eq_true, Bool.not_eq_true'] at hp
  obtain ⟨⟨⟨⟨ha, hb⟩, h2⟩, h3⟩, h5⟩ := hp
  refine ⟨ha, hb, h2, h3, ?_⟩
  cases hex : extract_prompt (upd.get_text.getD "") with
  | none => rw [hex] at h5; exact absurd h5 (by simp)
  | some p =>
    rw [hex] at h5
    exact ⟨p, rfl, by simpa using h5⟩

lemma joins_false_of_clean (ups : List TgUpdateRow) (u : Int) (j : IngestJobRow)
    (h : ∀ r ∈ ups, (r.updateId == u) = false) :
    joinsUpdate ups u j = false := by
  unfold joinsUpdate
  cases hf : ups.find? (fun r => r.dbId == j.telegramUpdateId) with
  | none => rfl
  | some r => simp [h r (List.mem_of_find?_eq_some hf)]

lemma joins_append_fresh_old (ups : List TgUpdateRow) (newRow : TgUpdateRow) (u : Int)
    (j : IngestJobRow)
    (hclean : ∀ r ∈ ups, (r.updateId == u) = false)
    (hne : (newRow.dbId == j.telegramUpdateId) = false) :
    joinsUpdate (ups ++ [newRow]) u j = false := by
  unfold joinsUpdate
  rw [List.find?_append]
  cases hf : ups.find? (fun r => r.dbId == j.telegramUpdateId) with
  | none => simp [hne]
  | some r => simp [hclean r (List.mem_of_find?_eq_some hf)]

/-- Filtering a mapped list commutes with mapping when the map preserves the predicate. -/
lemma filter_map_comm {a : Type} (f : a → a) (p : a → Bool)
    (hf : ∀ x, p (f x) = p x) : ∀ l : List a, (l.map f).filter p = (l.filter p).map f := by
  intro l
  induction l with
  | nil => rfl
  | cons x xs ih =>
    simp only [List.map_cons, List.filter_cons, hf]
    cases hx : p x with
    | true => simp [ih]
    | false => simp [ih]

lemma joins_append_fresh_new (ups : List TgUpdateRow) (newRow : TgUpdateRow) (u : Int)
    (j : IngestJobRow)
    (hnone : ∀ r ∈ ups, (r.dbId == j.telegramUpdateId) = false)
    (heq : (newRow.dbId == j.telegramUpdateId) = true)
    (hu : (newRow.updateId == u) = true) :
    joinsUpdate (ups ++ [newRow]) u j = true := by
  unfold joinsUpdate
  rw [List.find?_append]
  have h0 : ups.find? (fun r => r.dbId == j.telegramUpdateId) = none := by
    rw [List.find?_eq_none]
    intro r hr
    simp [hnone r hr]
  rw [h0]
  simp [heq, hu]

lemma handle_prompt_dup (pe : Option String) (cf : Bool) (upd : TelegramUpdate)
    (raw : String) (st : IngestState) (job : IngestJobRow)
    (hp : isPromptDelivery upd = true)
    (hdup : st.updates.any (fun r => r.updateId == upd.update_id) = true)
    (hfind : find_job_by_update_id st upd.update_id = some job) :
    handle_telegram_update pe cf upd raw st =
      ({ ok := true, job_id := some job.id, message := some "Already processing",
         send_text := none, notify_started := false }, st) := by
  obtain ⟨ha, hb, h2, h3, p, hex, hpne⟩ := promptDelivery_parts upd hp
  unfold handle_telegram_update
  simp only []
  rw [if_neg (by simp [ha, hb])]
  rw [if_neg (by simp [h2])]
  rw [if_neg (by simp [h3])]
  simp only [hex]
  rw [if_neg (by simp [hpne])]
  unfold insert_telegram_update_dedup
  rw [if_pos hdup]
  simp only [hfind]

lemma handle_prompt_fresh (pe : Option String) (cf : Bool) (upd : TelegramUpdate)
    (raw : String) (st : IngestState)
    (hp : isPromptDelivery upd = true)
    (hwf1 : ∀ r ∈ st.updates, r.dbId < st.nextUpdateDbId)
    (hwf2 : ∀ j ∈ st.jobs, j.telegramUpdateId < st.nextUpdateDbId)
    (hclean : ∀ r ∈ st.updates, (r.updateId == upd.update_id) = false) :
    countUpdatesFor (handle_telegram_update pe cf upd raw st).2 upd.update_id = 1 ∧
    ((jobsFor (handle_telegram_update pe cf upd raw st).2 upd.update_id).map
      (fun j => j.id)) = [st.nextJobId] ∧
    (handle_telegram_update pe cf upd raw st).2.published.length ≤ st.published.length + 1 ∧
    (∀ r ∈ (handle_telegram_update pe cf upd raw st).2.updates,
      r.dbId < (handle_telegram_update pe cf upd raw st).2.nextUpdateDbId) ∧
    (∀ j ∈ (handle_telegram_update pe cf upd raw st).2.jobs,
      j.telegramUpdateId < (handle_telegram_update pe cf upd raw st).2.nextUpdateDbId) ∧
    (handle_telegram_update pe cf upd raw st).1.job_id = some st.nextJobId ∧
    (pe = none →
      (handle_telegram_update pe cf upd raw st).2.published =
        st.published ++ [(st.nextJobId, 1)]) ∧
    (∀ e, pe = some e →
      (handle_telegram_update pe cf upd raw st).2.published = st.published ∧
      (handle_telegram_update pe cf upd raw st).1 =
        { ok := true, job_id := some st.nextJobId, message := some "Queue publish failed",
          send_text := some "⚠️ Queue error. Please try again.", notify_started := false } ∧
      (cf = false →
        ((jobsFor (handle_telegram_update pe cf upd raw st).2 upd.update_id).map
          (fun j => (j.status, j.errorMessage))) =
          [(JobStatus.failed, some ("Failed to enqueue job: " ++ e))])) := by
  obtain ⟨ha, hb, h2, h3, p, hex, hpne⟩ := promptDelivery_parts upd hp
  have hnodup : st.updates.any (fun r => r.updateId == upd.update_id) = false := by
    rw [List.any_eq_false]
    intro r hr
    simp [hclean r hr]
  unfold handle_telegram_update
  simp only []
  rw [if_neg (by simp [ha, hb])]
  rw [if_neg (by simp [h2])]
  rw [if_neg (by simp [h3])]
  simp only [hex]
  rw [if_neg (by simp [hpne])]
  unfold insert_telegram_update_dedup
  rw [if_neg (by simp [hnodup])]
  simp only []
  unfold create_job
  simp only []
  have hcountL : ((st.updates ++
      [({ dbId := st.nextUpdateDbId, updateId := upd.update_id, raw := raw } : TgUpdateRow)]).filter
        fun r => r.updateId == upd.update_id).length = 1 := by
    rw [List.filter_append]
    have h0 : (st.updates.filter fun r => r.updateId == upd.update_id) = [] := by
      rw [List.filter_eq_nil_iff]
      intro r hr
      simp [hclean r hr]
    rw [h0]
    simp
  have holdfalse : ∀ j ∈ st.jobs,
      joinsUpdate (st.updates ++
        [({ dbId := st.nextUpdateDbId, updateId := upd.update_id, raw := raw } : TgUpdateRow)])
        upd.update_id j = false := by
    intro j hj
    refine joins_append_fresh_old _ _ _ _ hclean ?_
    have hlt := hwf2 j hj
    simp only [beq_eq_false_iff_ne]
    intro he
    omega
  have hnewtrue : joinsUpdate (st.updates ++
      [({ dbId := st.nextUpdateDbId, updateId := upd.update_id, raw := raw } : TgUpdateRow)])
      upd.update_id
      ({ id := st.nextJobId, telegramUpdateId := st.nextUpdateDbId,
         chatId := upd.get_chat_id.getD 0, userId := upd.get_user_id, promptText := p,
         status := JobStatus.queued, errorMessage := none } : IngestJobRow) = true := by
    refine joins_append_fresh_new _ _ _ _ ?_ (by simp) (by simp)
    intro r hr
    have hlt := hwf1 r hr
    simp only [beq_eq_false_iff_ne]
    intro he
    omega
  have hjobsL : ((st.jobs ++
      [({ id := st.nextJobId, telegramUpdateId := st.nextUpdateDbId,
          chatId := upd.get_chat_id.getD 0, userId := upd.get_user_id, promptText := p,
          status := JobStatus.queued, errorMessage := none } : IngestJobRow)]).filter
        (joinsUpdate (st.updates ++
          [({ dbId := st.nextUpdateDbId, updateId := upd.update_id, raw := raw } : TgUpdateRow)])
          upd.update_id)) =
      [({ id := st.nextJobId, telegramUpdateId := st.nextUpdateDbId,
          chatId := upd.get_chat_id.getD 0, userId := upd.get_user_id, promptText := p,
          status := JobStatus.queued, errorMessage := none } : IngestJobRow)] := by
    rw [List.filter_append]
    have h0 : (st.jobs.filter (joinsUpdate (st.updates ++
        [({ dbId := st.nextUpdateDbId, updateId := upd.update_id, raw := raw } : TgUpdateRow)])
        upd.update_id)) = [] := by
      rw [List.filter_eq_nil_iff]
      intro j hj
      simp [holdfalse j hj]
    rw [h0]
    simp [hnewtrue]
  have hfindL : ((st.jobs ++
      [({ id := st.nextJobId, telegramUpdateId := st.nextUpdateDbId,
          chatId := upd.get_chat_id.getD 0, userId := upd.get_user_id, promptText := p,
          status := JobStatus.queued, errorMessage := none } : IngestJobRow)]).find?
        (joinsUpdate (st.updates ++
          [({ dbId := st.nextUpdateDbId, updateId := upd.update_id, raw := raw } : TgUpdateRow)])
          upd.update_id)) =
      some ({ id := st.nextJobId, telegramUpdateId := st.nextUpdateDbId,
              chatId := upd.get_chat_id.getD 0, userId := upd.get_user_id, promptText := p,
              status := JobStatus.queued, errorMessage := none } : IngestJobRow) := by
    rw [List.find?_append]
    have h0 : (st.jobs.find? (joinsUpdate (st.updates ++
        [({ dbId := st.nextUpdateDbId, updateId := upd.update_id, raw := raw } : TgUpdateRow)])
        upd.update_id)) = none := by
      rw [List.find?_eq_none]
      intro j hj
      simp [holdfalse j hj]
    rw [h0]
    simp [hnewtrue]
  have hjobsMap : (((st.jobs ++
      [({ id := st.nextJobId, telegramUpdateId := st.nextUpdateDbId,
          chatId := upd.get_chat_id.getD 0, userId := upd.get_user_id, promptText := p,
          status := JobStatus.queued, errorMessage := none } : IngestJobRow)]).filter
        (joinsUpdate (st.updates ++
          [({ dbId := st.nextUpdateDbId, updateId := upd.update_id, raw := raw } : TgUpdateRow)])
          upd.update_id)).map (fun j => j.id)) = [st.nextJobId] := by
    rw [hjobsL]
    rfl
  have hwfU : ∀ r ∈ st.updates ++
      [({ dbId := st.nextUpdateDbId, updateId := upd.update_id, raw := raw } : TgUpdateRow)],
      r.dbId < st.nextUpdateDbId + 1 := by
    intro r hr
    rcases List.mem_append.mp hr with h | h
    · have := hwf1 r h
      omega
    · rw [List.mem_singleton] at h
      subst h
      exact Nat.lt_succ_self _
  have hwfJ : ∀ j ∈ st.jobs ++
      [({ id := st.nextJobId, telegramUpdateId := st.nextUpdateDbId,
          chatId := upd.get_chat_id.getD 0, userId := upd.get_user_id, promptText := p,
          status := JobStatus.queued, errorMessage := none } : IngestJobRow)],
      j.telegramUpdateId < st.nextUpdateDbId + 1 := by
    intro j hj
    rcases List.mem_append.mp hj with h | h
    · have := hwf2 j h
      omega
    · rw [List.mem_singleton] at h
      subst h
      exact Nat.lt_succ_self _
  cases pe with
  | none =>
    refine ⟨?_, ?_, ?_, ?_, ?_, rfl, fun _ => rfl, fun e he => Option.noConfusion he⟩
    · exact hcountL
    · exact hjobsMap
    · simp
    · exact hwfU
    · exact hwfJ
  | some e =>
    cases cf with
    | true =>
      refine ⟨?_, ?_, ?_, ?_, ?_, rfl, fun h => Option.noConfusion h, ?_⟩
      · exact hcountL
      · exact hjobsMap
      · simp
      · exact hwfU
      · exact hwfJ
      · intro e' he'
        injection he' with he2
        subst he2
        exact ⟨rfl, rfl, fun hcf => Bool.noConfusion hcf⟩
    | false =>
      have hfind2 : find_job_by_update_id
          { updates := st.updates ++
              [({ dbId := st.nextUpdateDbId, updateId := upd.update_id, raw := raw } : TgUpdateRow)]
            jobs := st.jobs ++
              [({ id := st.nextJobId, telegramUpdateId := st.nextUpdateDbId,
                  chatId := upd.get_chat_id.getD 0, userId := upd.get_user_id, promptText := p,
                  status := JobStatus.queued, errorMessage := none } : IngestJobRow)]
            published := st.published
            nextUpdateDbId := st.nextUpdateDbId + 1
            nextJobId := st.nextJobId + 1 } upd.update_id =
          some ({ id := st.nextJobId, telegramUpdateId := st.nextUpdateDbId,
                  chatId := upd.get_chat_id.getD 0, userId := upd.get_user_id, promptText := p,
                  status := JobStatus.queued, errorMessage := none } : IngestJobRow) := by
        unfold find_job_by_update_id
        exact hfindL
      simp only [hfind2]
      unfold mark_job_failed
      simp only []
      rw [if_neg Bool.false_ne_true]
      have hpres : ∀ j : IngestJobRow,
          joinsUpdate (st.updates ++
            [({ dbId := st.nextUpdateDbId, updateId := upd.update_id, raw := raw } : TgUpdateRow)])
            upd.update_id
            (if (j.id == st.nextJobId) = true then
              ({ id := j.id, telegramUpdateId := j.telegramUpdateId, chatId := j.chatId,
                 userId := j.userId, promptText := j.promptText, status := JobStatus.failed,
                 errorMessage := some ("Failed to enqueue job: " ++ e) } : IngestJobRow)
            else j) =
          joinsUpdate (st.updates ++
            [({ dbId := st.nextUpdateDbId, updateId := upd.update_id, raw := raw } : TgUpdateRow)])
            upd.update_id j := by
        intro j
        by_cases hje : (j.id == st.nextJobId) = true
        · rw [if_pos hje]
          rfl
        · rw [if_neg hje]
      have hfm := filter_map_comm
        (fun j : IngestJobRow =>
          if (j.id == st.nextJobId) = true then
            ({ id := j.id, telegramUpdateId := j.telegramUpdateId, chatId := j.chatId,
               userId := j.userId, promptText := j.promptText, status := JobStatus.failed,
               errorMessage := some ("Failed to enqueue job: " ++ e) } : IngestJobRow)
          else j)
        (joinsUpdate (st.updates ++
          [({ dbId := st.nextUpdateDbId, updateId := upd.update_id, raw := raw } : TgUpdateRow)])
          upd.update_id)
        hpres
        (st.jobs ++
          [({ id := st.nextJobId, telegramUpdateId := st.nextUpdateDbId,
              chatId := upd.get_chat_id.getD 0, userId := upd.get_user_id, promptText := p,
              status := JobStatus.queued, errorMessage := none } : IngestJobRow)])
      refine ⟨?_, ?_, ?_, ?_, ?_, trivial, fun h => Option.noConfusion h, ?_⟩
      · exact hcountL
      · simp only [jobsFor]
        rw [hfm, hjobsL]
        simp
      · simp
      · exact hwfU
      · intro j hj
        simp only [List.mem_map] at hj
        obtain ⟨j', hj', rfl⟩ := hj
        have hlt := hwfJ j' hj'
        by_cases hje : (j'.id == st.nextJobId) = true
        · rw [if_pos hje]
          exact hlt
        · rw [if_neg hje]
          exact hlt
      · intro e' he'
        injection he' with he2
        subst he2
        refine ⟨rfl, trivial, fun _ => ?_⟩
        simp only [jobsFor]
        rw [hfm, hjobsL]
        simp

lemma find?_eq_of_filter_singleton {a : Type} (p : a → Bool) (l : List a) (x : a)
    (h : l.filter p = [x]) : l.find? p = some x := by
  induction l with
  | nil => simp at h
  | cons y ys ih =>
    rw [List.filter_cons] at h
    cases hy : p y with
    | true =>
      rw [hy] at h
      simp only [if_true] at h
      rw [List.cons.injEq] at h
      rw [List.find?_cons, hy, h.1]
    | false =>
      rw [hy] at h
      simp only [if_false, Bool.false_eq_true] at h
      rw [List.find?_cons, hy]
      exact ih h

lemma runIngest_dup_fixpoint (flags : List (Option String × Bool)) (upd : TelegramUpdate)
    (raw : String) (st : IngestState) (job : IngestJobRow)
    (hp : isPromptDelivery upd = true)
    (hdup : st.updates.any (fun r => r.updateId == upd.update_id) = true)
    (hfind : find_job_by_update_id st upd.update_id = some job) :
    runIngest flags upd raw st =
      (List.replicate flags.length
        ({ ok := true, job_id := some job.id, message := some "Already processing",
           send_text := none, notify_started := false } : WebhookDecision), st) := by
  induction flags with
  | nil => rfl
  | cons f rest ih =>
    unfold runIngest
    simp only []
    rw [handle_prompt_dup f.1 f.2 upd raw st job hp hdup hfind]
    simp only []
    rw [ih]
    rfl

/-- C1 counterexample: the claim says every duplicate delivery after the
first receives either the created job's id with "Already processing" or,
when no job exists for the update id, "Already received". A `/start`
body delivered twice never reaches the deduplication insert: the second
delivery answers "Start" again - not "Already received" - with no job id,
although no job exists for that update id. -/
theorem webhook_ingest_idempotent_counterexample :
    (runIngest [(none, false), (none, false)] sampleStartUpdate "raw" emptyIngest).1 =
      [({ ok := true, job_id := none, message := some "Start",
          send_text := some "WELCOME_MESSAGE", notify_started := false } : WebhookDecision),
       ({ ok := true, job_id := none, message := some "Start",
          send_text := some "WELCOME_MESSAGE", notify_started := false } : WebhookDecision)] ∧
    jobsFor (runIngest [(none, false), (none, false)] sampleStartUpdate "raw"
      emptyIngest).2 7 = [] := by decide

/-- C1 (amended): for a prompt-carrying body delivered N ≥ 1 times into a
committed state with no row for its update id, the run keeps exactly one
TelegramUpdate row and exactly one Job row (the one created by the first
delivery) for that update id, publishes at most one queue message, and
every delivery after the first (whatever its own publish flags) answers
200 with the created job's id and "Already processing", leaving the
state untouched. Non-prompt bodies never insert and repeat their command
response instead of "Already received". -/
theorem webhook_ingest_idempotent (f : Option String × Bool)
    (rest : List (Option String × Bool)) (upd : TelegramUpdate) (raw : String)
    (st : IngestState)
    (hp : isPromptDelivery upd = true)
    (hwf : ingestWF st)
    (hclean : ∀ r ∈ st.updates, (r.updateId == upd.update_id) = false) :
    runIngest (f :: rest) upd raw st =
      ((handle_telegram_update f.1 f.2 upd raw st).1 ::
        List.replicate rest.length
          ({ ok := true, job_id := some st.nextJobId, message := some "Already processing",
             send_text := none, notify_started := false } : WebhookDecision),
       (handle_telegram_update f.1 f.2 upd raw st).2) ∧
    countUpdatesFor (handle_telegram_update f.1 f.2 upd raw st).2 upd.update_id = 1 ∧
    ((jobsFor (handle_telegram_update f.1 f.2 upd raw st).2 upd.update_id).map
      (fun j => j.id)) = [st.nextJobId] ∧
    (handle_telegram_update f.1 f.2 upd raw st).2.published.length ≤
      st.published.length + 1 := by
  obtain ⟨hwf1, hwf2⟩ := hwf
  obtain ⟨hcount, hjobs, hpub, hwfU, hwfJ, hjid, hnone, hsome⟩ :=
    handle_prompt_fresh f.1 f.2 upd raw st hp hwf1 hwf2 hclean
  refine ⟨?_, hcount, hjobs, hpub⟩
  obtain ⟨j, hj1, hj2⟩ : ∃ j,
      jobsFor (handle_telegram_update f.1 f.2 upd raw st).2 upd.update_id = [j] ∧
        j.id = st.nextJobId := by
    cases hl : jobsFor (handle_telegram_update f.1 f.2 upd raw st).2 upd.update_id with
    | nil =>
      rw [hl] at hjobs
      simp at hjobs
    | cons a t =>
      cases t with
      | nil =>
        rw [hl] at hjobs
        simp at hjobs
        exact ⟨a, rfl, hjobs⟩
      | cons b t2 =>
        rw [hl] at hjobs
        simp at hjobs
  have hfind1 : find_job_by_update_id (handle_telegram_update f.1 f.2 upd raw st).2
      upd.update_id = some j := by
    unfold find_job_by_update_id
    exact find?_eq_of_filter_singleton _ _ _ hj1
  have hdup1 : (handle_telegram_update f.1 f.2 upd raw st).2.updates.any
      (fun r => r.updateId == upd.update_id) = true := by
    unfold countUpdatesFor at hcount
    have hpos : 0 < ((handle_telegram_update f.1 f.2 upd raw st).2.updates.filter
        fun r => r.updateId == upd.update_id).length := by omega
    obtain ⟨r, hr⟩ := List.exists_mem_of_length_pos hpos
    rw [List.mem_filter] at hr
    rw [List.any_eq_true]
    exact ⟨r, hr.1, hr.2⟩
  have hrun := runIngest_dup_fixpoint rest upd raw
    (handle_telegram_update f.1 f.2 upd raw st).2 j hp hdup1 hfind1
  unfold runIngest
  simp only []
  rw [hrun, hj2]

/-- C1 witness: two deliveries of the sample `/prompt` body into the
empty committed state, the second with a failing publish; the second
delivery answers with job id 1 and "Already processing", and exactly one
update row and one job row exist for id 7. -/
theorem webhook_ingest_idempotent_witness :
    isPromptDelivery samplePromptUpdate = true ∧
    (runIngest [(none, false), (some "boom", true)] samplePromptUpdate "raw" emptyIngest).1 =
      [(handle_telegram_update none false samplePromptUpdate "raw" emptyIngest).1,
       ({ ok := true, job_id := some 1, message := some "Already processing",
          send_text := none, notify_started := false } : WebhookDecision)] ∧
    countUpdatesFor
      (handle_telegram_update none false samplePromptUpdate "raw" emptyIngest).2 7 = 1 ∧
    ((jobsFor (handle_telegram_update none false samplePromptUpdate "raw" emptyIngest).2 7).map
      (fun j => j.id)) = [1] := by
  have h := webhook_ingest_idempotent (none, false) [(some "boom", true)]
    samplePromptUpdate "raw" emptyIngest (by decide)
    ⟨by simp [emptyIngest], by simp [emptyIngest]⟩ (by simp [emptyIngest])
  refine ⟨by decide, ?_, h.2.1, h.2.2.1⟩
  rw [h.1]
  rfl

/-- C4 counterexample: the claim says a job is never left QUEUED without
a published queue message. When the publish raises and the compensating
mark-failed transaction itself raises, the bare `except Exception: pass`
swallows it: the response still carries "Queue publish failed", but the
job row stays QUEUED with nothing published. -/
theorem publish_failure_compensated_counterexample :
    (handle_telegram_update (some "boom") true samplePromptUpdate "raw"
      emptyIngest).1.message = some "Queue publish failed" ∧
    ((jobsFor (handle_telegram_update (some "boom") true samplePromptUpdate "raw"
        emptyIngest).2 7).map (fun j => (j.status, j.errorMessage))) =
      [(JobStatus.queued, (none : Option String))] ∧
    (handle_telegram_update (some "boom") true samplePromptUpdate "raw"
      emptyIngest).2.published = [] := by decide

/-- C4 (amended): when the job-creation transaction has committed and the
queue publish raises, nothing is published and the response carries the
created job's id with the queue-error message; the QUEUED→FAILED
transition (error message "Failed to enqueue job: " plus the publish
error) happens only when the compensating transaction itself succeeds -
it is best-effort, and a failing compensation leaves the job QUEUED. -/
theorem publish_failure_compensated (e : String) (cf : Bool) (upd : TelegramUpdate)
    (raw : String) (st : IngestState)
    (hp : isPromptDelivery upd = true)
    (hwf : ingestWF st)
    (hclean : ∀ r ∈ st.updates, (r.updateId == upd.update_id) = false) :
    (handle_telegram_update (some e) cf upd raw st).1 =
      { ok := true, job_id := some st.nextJobId, message := some "Queue publish failed",
        send_text := some "⚠️ Queue error. Please try again.", notify_started := false } ∧
    (handle_telegram_update (some e) cf upd raw st).2.published = st.published ∧
    ((jobsFor (handle_telegram_update (some e) cf upd raw st).2 upd.update_id).map
      (fun j => j.id)) = [st.nextJobId] ∧
    (cf = false →
      ((jobsFor (handle_telegram_update (some e) cf upd raw st).2 upd.update_id).map
        (fun j => (j.status, j.errorMessage))) =
        [(JobStatus.failed, some ("Failed to enqueue job: " ++ e))]) := by
  obtain ⟨hwf1, hwf2⟩ := hwf
  obtain ⟨hcount, hjobs, hpub, hwfU, hwfJ, hjid, hnone, hsome⟩ :=
    handle_prompt_fresh (some e) cf upd raw st hp hwf1 hwf2 hclean
  obtain ⟨hpubeq, hdec, hfailed⟩ := hsome e rfl
  exact ⟨hdec, hpubeq, hjobs, hfailed⟩

/-- C4 witness: the sample `/prompt` body into the empty committed state
with publish error "boom" and a succeeding compensation: the response is
the queue-error decision for job 1, nothing is published, and the job
row ends FAILED with the enqueue error message. -/
theorem publish_failure_compensated_witness :
    isPromptDelivery samplePromptUpdate = true ∧
    (handle_telegram_update (some "boom") false samplePromptUpdate "raw"
        emptyIngest).1 =
      { ok := true, job_id := some 1, message := some "Queue publish failed",
        send_text := some "⚠️ Queue error. Please try again.", notify_started := false } ∧
    (handle_telegram_update (some "boom") false samplePromptUpdate "raw"
      emptyIngest).2.published = [] ∧
    ((jobsFor (handle_telegram_update (some "boom") false samplePromptUpdate "raw"
        emptyIngest).2 7).map (fun j => (j.status, j.errorMessage))) =
      [(JobStatus.failed, some ("Failed to enqueue job: boom"))] := by
  have h := publish_failure_compensated "boom" false samplePromptUpdate "raw" emptyIngest
    (by decide) ⟨by simp [emptyIngest], by simp [emptyIngest]⟩ (by simp [emptyIngest])
  exact ⟨by decide, h.1, h.2.1, h.2.2.2 rfl⟩
